import Mathlib

/-!
# CDN Front Door Route "disable link to default domain" resource

A shallow embedding of
`internal/services/cdn/cdn_frontdoor_route_disable_link_to_default_domain_resource.go`.

The four lifecycle functions (`Create`, `Read`, `Update`, `Delete`) are sequential
programs over

* the plugin framework's `ResourceData` (identifier, the two schema fields, the
  prior-state values that `HasChange` / `GetChange` consult, the timeouts);
* the remote service, reached through the route client (`Get`, `Create`,
  `WaitForCompletionRef`) and the custom-domain client (`Get`);
* the process-wide named locks (`locks.ByID` / `locks.UnlockByID`).

Each function is embedded as a total function returning an `Outcome`: the Go
`error` (here `Option Err`, `none` for `nil`), the resource data and the world
after the call, and the list of lock / remote-call events the call emitted, in
program order. A Go `defer` is embedded as the event (and state change) that
follows the rest of the function body on every path.

Helpers of the package that live in other files (`parse.*`, the two
`flatten...` / `validate...` helpers and the two lock-name constants) are
parameters of the embedding, collected in `Env`. Where a statement depends on
what the validation helper decides, the helper is instantiated with
`validateCustomDomainLinkToDefaultDomainState` below, written from the spec.

The remote service is modelled as a store of routes: `Get` reads it, and a
`Create` whose submission and whose wait both succeed replaces the addressed
route by the one submitted. Failures of the remote calls are inputs (`World`).
-/

namespace Cdn

/-! ## Identifiers (package `parse`) -/

/-- The `parse.FrontDoorRouteId` struct. -/
structure FrontDoorRouteId where
  SubscriptionId : String
  ResourceGroup : String
  ProfileName : String
  AfdEndpointName : String
  RouteName : String
deriving DecidableEq, Repr

/-- The `parse.FrontDoorCustomDomainId` struct. -/
structure FrontDoorCustomDomainId where
  SubscriptionId : String
  ResourceGroup : String
  ProfileName : String
  CustomDomainName : String
deriving DecidableEq, Repr

/-- The `parse.FrontDoorRouteDisableLinkToDefaultDomainId` struct: the route
coordinates plus the generated UUID. -/
structure FrontDoorRouteDisableLinkToDefaultDomainId where
  SubscriptionId : String
  ResourceGroup : String
  ProfileName : String
  AfdEndpointName : String
  RouteName : String
  DisableLinkToDefaultDomainName : String
deriving DecidableEq, Repr

/-- The constructor `parse.NewFrontDoorRouteDisableLinkToDefaultDomainID`. -/
def NewFrontDoorRouteDisableLinkToDefaultDomainID
    (subscriptionId resourceGroup profileName afdEndpointName routeName name : String) :
    FrontDoorRouteDisableLinkToDefaultDomainId :=
  ⟨subscriptionId, resourceGroup, profileName, afdEndpointName, routeName, name⟩

/-! ## Remote objects (Azure SDK package `cdn`) -/

/-- The SDK type `cdn.LinkToDefaultDomain` is a string type. -/
abbrev LinkToDefaultDomain := String

/-- The SDK constant `cdn.LinkToDefaultDomainDisabled`. -/
def LinkToDefaultDomainDisabled : LinkToDefaultDomain := "Disabled"

/-- The SDK constant `cdn.LinkToDefaultDomainEnabled`. -/
def LinkToDefaultDomainEnabled : LinkToDefaultDomain := "Enabled"

/-- The SDK type `cdn.ActivatedResourceReference`; both fields are pointers. -/
structure ActivatedResourceReference where
  ID : Option String
  IsActive : Option Bool
deriving DecidableEq, Repr

/-- The SDK type `cdn.RouteProperties`. `CustomDomains` is a pointer to a slice
(`none` is the nil pointer). The fields this resource never inspects are kept as
plain values so that what is sent back can be compared with what was fetched. -/
structure RouteProperties where
  CustomDomains : Option (List ActivatedResourceReference)
  OriginGroup : Option String
  OriginPath : Option String
  RuleSets : Option (List String)
  SupportedProtocols : Option (List String)
  PatternsToMatch : Option (List String)
  ForwardingProtocol : String
  LinkToDefaultDomain : LinkToDefaultDomain
  HTTPSRedirect : String
  EnabledState : String
deriving DecidableEq, Repr

/-- The assignment `props.LinkToDefaultDomain = v`: only that field changes. -/
def RouteProperties.setLinkToDefaultDomain (props : RouteProperties) (v : String) :
    RouteProperties :=
  { props with LinkToDefaultDomain := v }

/-- Two property payloads agree on every field other than
`LinkToDefaultDomain`. -/
def sameExceptLinkToDefaultDomain (sent fetched : RouteProperties) : Prop :=
  sent.CustomDomains = fetched.CustomDomains ∧
  sent.OriginGroup = fetched.OriginGroup ∧
  sent.OriginPath = fetched.OriginPath ∧
  sent.RuleSets = fetched.RuleSets ∧
  sent.SupportedProtocols = fetched.SupportedProtocols ∧
  sent.PatternsToMatch = fetched.PatternsToMatch ∧
  sent.ForwardingProtocol = fetched.ForwardingProtocol ∧
  sent.HTTPSRedirect = fetched.HTTPSRedirect ∧
  sent.EnabledState = fetched.EnabledState

/-- The SDK type `cdn.Route`, reduced to the embedded `*RouteProperties`
(`none` is the nil pointer). -/
structure Route where
  RouteProperties : Option RouteProperties
deriving DecidableEq, Repr

/-- What `routeClient.Get` hands back: a route with a nil error, or a non-nil
error whose response either was a not-found response
(`utils.ResponseWasNotFound`) or was not. -/
inductive RouteGetResult where
  | ok (existing : Route)
  | notFound (err : String)
  | failed (err : String)
deriving DecidableEq, Repr

/-! ## Plugin framework: resource data, timeouts, contexts -/

/-- The `pluginsdk.ResourceTimeout` of the resource, one duration (in minutes) per
operation. -/
structure ResourceTimeout where
  Create : Nat
  Read : Nat
  Update : Nat
  Delete : Nat
deriving DecidableEq, Repr

/-- The `Timeouts` block of `resourceCdnFrontDoorRouteDisableLinkToDefaultDomain`. -/
def resourceCdnFrontDoorRouteDisableLinkToDefaultDomain_Timeouts : ResourceTimeout :=
  { Create := 30, Read := 5, Update := 30, Delete := 30 }

/-- A `context.Context` as far as this resource is concerned: the duration of
the deadline it was derived with. -/
structure Context where
  Timeout : Nat
deriving DecidableEq, Repr

/-- The `*pluginsdk.ResourceData` handed to the lifecycle functions.
`Id` is `d.Id()`; the two schema fields hold what `d.Get` returns (and `d.Set`
writes); the `prior_` fields hold the values of the prior state, which are the
"old" side of `d.GetChange` / `d.HasChange`. -/
structure ResourceData where
  Id : String
  cdn_frontdoor_route_id : String
  cdn_frontdoor_custom_domain_ids : List String
  prior_cdn_frontdoor_route_id : String
  prior_cdn_frontdoor_custom_domain_ids : List String
  Timeouts : ResourceTimeout
deriving DecidableEq, Repr

/-- Framework call `d.SetId`. -/
def ResourceData.SetId (d : ResourceData) (v : String) : ResourceData :=
  { d with Id := v }

/-- Framework call `d.HasChange("cdn_frontdoor_custom_domain_ids")`: the prior
and the current value differ. -/
def ResourceData.HasChange_cdn_frontdoor_custom_domain_ids (d : ResourceData) : Bool :=
  decide (d.prior_cdn_frontdoor_custom_domain_ids ≠ d.cdn_frontdoor_custom_domain_ids)

/-- Modelled from the spec: `timeouts.ForCreate` is declared in the package
`internal/timeouts`, not in this file. Each operation receives its own deadline;
this one is bounded by the resource's Create timeout. -/
def ForCreate (d : ResourceData) : Context := ⟨d.Timeouts.Create⟩

/-- Modelled from the spec: `timeouts.ForRead` is declared in the package
`internal/timeouts`, not in this file. Each operation receives its own deadline;
this one is bounded by the resource's Read timeout. -/
def ForRead (d : ResourceData) : Context := ⟨d.Timeouts.Read⟩

/-- Modelled from the spec: `timeouts.ForUpdate` is declared in the package
`internal/timeouts`, not in this file. Each operation receives its own deadline;
this one is bounded by the resource's Update timeout. -/
def ForUpdate (d : ResourceData) : Context := ⟨d.Timeouts.Update⟩

/-- Modelled from the spec: `timeouts.ForDelete` is declared in the package
`internal/timeouts`, not in this file. Each operation receives its own deadline;
this one is bounded by the resource's Delete timeout. -/
def ForDelete (d : ResourceData) : Context := ⟨d.Timeouts.Delete⟩

/-! ## Errors -/

/-- The errors the four functions return, one constructor per `fmt.Errorf`
site (the format string is quoted), carrying the values the message embeds. -/
inductive Err where
  /-- A bare `return err`. -/
  | passthrough (err : String)
  /-- Message "creating Front Door Route Disable Link To Default Domain: %+v". -/
  | creatingParse (err : String)
  /-- Message "generating UUID: %+v". -/
  | generatingUUID (err : String)
  /-- Message "creating %s: %s was not found". -/
  | creatingNotFound (id : FrontDoorRouteDisableLinkToDefaultDomainId) (routeId : FrontDoorRouteId)
  /-- Message "retrieving existing %s: %+v" with a route id. -/
  | retrievingExistingRoute (routeId : FrontDoorRouteId) (err : String)
  /-- Message "creating %s: %s properties are 'nil'". -/
  | creatingPropertiesNil (id : FrontDoorRouteDisableLinkToDefaultDomainId)
      (routeId : FrontDoorRouteId)
  /-- Message "creating %s: it is invalid to disable the 'LinkToDefaultDomain' ...". -/
  | creatingNoCustomDomains (id : FrontDoorRouteDisableLinkToDefaultDomainId) (routeName : String)
  /-- Message "creating %s: %+v" around the validation error. -/
  | creatingValidate (id : FrontDoorRouteDisableLinkToDefaultDomainId) (err : String)
  /-- Message "creating %s: %+v" around the error of `routeClient.Create`. -/
  | creatingCreate (id : FrontDoorRouteDisableLinkToDefaultDomainId) (err : String)
  /-- Message "waiting for the creation of %s: %+v". -/
  | creatingWait (id : FrontDoorRouteDisableLinkToDefaultDomainId) (err : String)
  /-- Message "front door route disable link to default domain: %+v". -/
  | readParse (err : String)
  /-- Message "%s: unable to parse CDN Front Door Custom Domain ID: %+v". -/
  | unableToParseCustomDomain (id : FrontDoorRouteDisableLinkToDefaultDomainId) (err : String)
  /-- Message "retrieving existing %s: %+v" with a custom-domain id. -/
  | retrievingExistingCustomDomain (cdId : FrontDoorCustomDomainId) (err : String)
  /-- Message "updating Front Door Route Disable Link To Default Domain: %+v". -/
  | updatingParse (err : String)
  /-- Message "%s: retrieving existing %s: %+v". -/
  | updatingRetrievingExisting (id : FrontDoorRouteDisableLinkToDefaultDomainId)
      (routeId : FrontDoorRouteId) (err : String)
  /-- Message "updating %s: %s properties are 'nil'". -/
  | updatingPropertiesNil (id : FrontDoorRouteDisableLinkToDefaultDomainId)
      (routeId : FrontDoorRouteId)
  /-- Message "updating %s: it is invalid to disable the 'LinkToDefaultDomain' ...". -/
  | updatingNoCustomDomains (id : FrontDoorRouteDisableLinkToDefaultDomainId) (routeName : String)
  /-- Message "updating %s: %+v" around the validation error. -/
  | updatingValidate (id : FrontDoorRouteDisableLinkToDefaultDomainId) (err : String)
  /-- Message "updating %s: %+v" around the error of `routeClient.Create`. -/
  | updatingCreate (id : FrontDoorRouteDisableLinkToDefaultDomainId) (err : String)
  /-- Message "waiting for the update of %s: %+v". -/
  | updatingWait (id : FrontDoorRouteDisableLinkToDefaultDomainId) (err : String)
  /-- Message "deleting %s: %s properties are 'nil'". -/
  | deletingPropertiesNil (id : FrontDoorRouteDisableLinkToDefaultDomainId)
      (route : FrontDoorRouteId)
  /-- Message "deleting %s: %+v" around the error of `client.Create`. -/
  | deletingCreate (id : FrontDoorRouteDisableLinkToDefaultDomainId) (err : String)
  /-- Message "waiting for the deletion of %s: %+v". -/
  | deletingWait (id : FrontDoorRouteDisableLinkToDefaultDomainId) (err : String)
deriving DecidableEq, Repr

/-! ## Events, world, environment -/

/-- The observable steps of an operation: lock calls and remote calls, each
remote call with the context it was issued under and the coordinates it was
addressed to. -/
inductive Event where
  | lockByID (name : String)
  | unlockByID (name : String)
  | routeGet (ctx : Context) (resourceGroup profileName endpointName routeName : String)
  | routeCreate (ctx : Context) (resourceGroup profileName endpointName routeName : String)
      (route : Route)
  | waitForCompletion (ctx : Context)
  | customDomainGet (ctx : Context) (resourceGroup profileName customDomainName : String)
deriving DecidableEq, Repr

/-- The event is a mutating route `Create` call. -/
def Event.isRouteCreate : Event → Bool
  | .routeCreate _ _ _ _ _ _ => true
  | _ => false

/-- The event is a route `Get` call. -/
def Event.isRouteGet : Event → Bool
  | .routeGet _ _ _ _ _ => true
  | _ => false

/-- The event is a custom-domain `Get` call. -/
def Event.isCustomDomainGet : Event → Bool
  | .customDomainGet _ _ _ _ => true
  | _ => false

/-- The event is a lock or unlock call. -/
def Event.isLockCall : Event → Bool
  | .lockByID _ => true
  | .unlockByID _ => true
  | _ => false

/-- The mutating route `Create` calls of a trace, in order. -/
def mutatingCalls (trace : List Event) : List Event :=
  trace.filter Event.isRouteCreate

/-- Everything outside the function under study: the remote service (the route
store read by `Get`, whether a `Create` submission or the wait for its completion
fails, which custom domains `Get` finds), the UUID generator, and the named
locks currently held. -/
structure World where
  routes : String → String → String → String → RouteGetResult
  createErr : String → String → String → String → Route → Option String
  waitErr : String → String → String → String → Route → Option String
  customDomains : String → String → String → Option String
  uuid : Except String String
  held : List String

/-- Call `locks.ByID`. -/
def World.ByID (w : World) (name : String) : World :=
  { w with held := name :: w.held }

/-- Call `locks.UnlockByID`. -/
def World.UnlockByID (w : World) (name : String) : World :=
  { w with held := w.held.erase name }

/-- A long-running route `Create` that reached its terminal state: the remote
store now returns the submitted route at the addressed coordinates. -/
def World.completed (w : World) (resourceGroup profileName endpointName routeName : String)
    (route : Route) : World :=
  { w with
    routes := fun rg p e r =>
      if rg = resourceGroup ∧ p = profileName ∧ e = endpointName ∧ r = routeName then
        RouteGetResult.ok route
      else w.routes rg p e r }

/-- The parts of the package that are declared in other files. -/
structure Env where
  /-- The parser `parse.FrontDoorRouteID`. -/
  FrontDoorRouteID : String → Except String FrontDoorRouteId
  /-- The parser `parse.FrontDoorRouteDisableLinkToDefaultDomainID`. -/
  FrontDoorRouteDisableLinkToDefaultDomainID :
    String → Except String FrontDoorRouteDisableLinkToDefaultDomainId
  /-- The parser `parse.FrontDoorCustomDomainID`. -/
  FrontDoorCustomDomainID : String → Except String FrontDoorCustomDomainId
  /-- The method `ID()` of a route id. -/
  routeIdID : FrontDoorRouteId → String
  /-- The method `ID()` of a disable-link id. -/
  disableLinkIdID : FrontDoorRouteDisableLinkToDefaultDomainId → String
  /-- The helper `flattenCustomDomainActivatedResourceArray`. -/
  flattenCustomDomainActivatedResourceArray :
    Option (List ActivatedResourceReference) → Except String (List String)
  /-- The helper `validateCustomDomainLinkToDefaultDomainState` (`none` is a nil error). -/
  validateCustomDomainLinkToDefaultDomainState :
    List String → List String → String → String → Option String
  /-- The constant `cdnFrontDoorRouteResourceType`. -/
  cdnFrontDoorRouteResourceType : String
  /-- The constant `cdnFrontDoorCustomDomainResourceType`. -/
  cdnFrontDoorCustomDomainResourceType : String

/-- What a lifecycle function leaves behind. -/
structure Outcome where
  err : Option Err
  d : ResourceData
  w : World
  trace : List Event

/-! ## The lifecycle functions -/

/-- The `for _, v := range customDomains` loop of
`resourceCdnFrontDoorRouteDisableLinkToDefaultDomainRead`: parse each configured
id and `Get` the custom domain, returning at the first failure. The result is
the error (if any) and the events emitted. -/
def readCustomDomainsLoop (env : Env) (w : World) (customDomainCtx : Context)
    (id : FrontDoorRouteDisableLinkToDefaultDomainId) : List String → Option Err × List Event
  | [] => (none, [])
  | v :: rest =>
    match env.FrontDoorCustomDomainID v with
    | .error err => (some (Err.unableToParseCustomDomain id err), [])
    | .ok cdId =>
      let getEv := Event.customDomainGet customDomainCtx cdId.ResourceGroup cdId.ProfileName
        cdId.CustomDomainName
      match w.customDomains cdId.ResourceGroup cdId.ProfileName cdId.CustomDomainName with
      | some err => (some (Err.retrievingExistingCustomDomain cdId err), [getEv])
      | none =>
        let r := readCustomDomainsLoop env w customDomainCtx id rest
        (r.1, getEv :: r.2)

/-- The function `resourceCdnFrontDoorRouteDisableLinkToDefaultDomainRead`. -/
def resourceCdnFrontDoorRouteDisableLinkToDefaultDomainRead (env : Env) (d : ResourceData)
    (w : World) : Outcome :=
  let routeCtx := ForRead d
  let customDomainCtx := ForRead d
  match env.FrontDoorRouteDisableLinkToDefaultDomainID d.Id with
  | .error err => ⟨some (Err.passthrough err), d, w, []⟩
  | .ok id =>
    match env.FrontDoorRouteID d.cdn_frontdoor_route_id with
    | .error err => ⟨some (Err.readParse err), d, w, []⟩
    | .ok routeId =>
      let getEv := Event.routeGet routeCtx routeId.ResourceGroup routeId.ProfileName
        routeId.AfdEndpointName routeId.RouteName
      match w.routes routeId.ResourceGroup routeId.ProfileName routeId.AfdEndpointName
          routeId.RouteName with
      | .notFound _ => ⟨none, d.SetId "", w, [getEv]⟩
      | .failed err => ⟨some (Err.retrievingExistingRoute routeId err), d, w, [getEv]⟩
      | .ok _ =>
        let customDomains := d.cdn_frontdoor_custom_domain_ids
        let r := readCustomDomainsLoop env w customDomainCtx id customDomains
        ⟨r.1, d, w, getEv :: r.2⟩

/-- The writes that end Create (lines 140-142): `d.SetId(id.ID())`,
`d.Set("cdn_frontdoor_route_id", routeId.ID())` and
`d.Set("cdn_frontdoor_custom_domain_ids", customDomains)`. -/
def createRecorded (env : Env) (d : ResourceData)
    (id : FrontDoorRouteDisableLinkToDefaultDomainId) (routeId : FrontDoorRouteId)
    (customDomains : List String) : ResourceData :=
  { d with
    Id := env.disableLinkIdID id
    cdn_frontdoor_route_id := env.routeIdID routeId
    cdn_frontdoor_custom_domain_ids := customDomains }

/-- The writes that end the `if` block of Update (lines 267-268):
`d.Set("cdn_frontdoor_route_id", routeId.ID())` and
`d.Set("cdn_frontdoor_custom_domain_ids", customDomains)`. -/
def updateRecorded (env : Env) (d : ResourceData) (routeId : FrontDoorRouteId)
    (customDomains : List String) : ResourceData :=
  { d with
    cdn_frontdoor_route_id := env.routeIdID routeId
    cdn_frontdoor_custom_domain_ids := customDomains }

/-- The body of `resourceCdnFrontDoorRouteDisableLinkToDefaultDomainCreate` from
the route `Get` (line 91) to the final `return`, i.e. the part that runs with
both locks taken. -/
def createLocked (env : Env) (d : ResourceData) (w : World) (routeCtx : Context)
    (customDomains : List String) (routeId : FrontDoorRouteId)
    (id : FrontDoorRouteDisableLinkToDefaultDomainId) : Outcome :=
  let getEv := Event.routeGet routeCtx routeId.ResourceGroup routeId.ProfileName
    routeId.AfdEndpointName routeId.RouteName
  match w.routes routeId.ResourceGroup routeId.ProfileName routeId.AfdEndpointName
      routeId.RouteName with
  | .notFound _ => ⟨some (Err.creatingNotFound id routeId), d, w, [getEv]⟩
  | .failed err => ⟨some (Err.retrievingExistingRoute routeId err), d, w, [getEv]⟩
  | .ok existing =>
    match existing.RouteProperties with
    | none => ⟨some (Err.creatingPropertiesNil id routeId), d, w, [getEv]⟩
    | some props =>
      let resourceCustomDomains := d.cdn_frontdoor_custom_domain_ids
      match env.flattenCustomDomainActivatedResourceArray props.CustomDomains with
      | .error err => ⟨some (Err.passthrough err), d, w, [getEv]⟩
      | .ok routeCustomDomains =>
        if routeCustomDomains.length = 0 then
          ⟨some (Err.creatingNoCustomDomains id routeId.RouteName), d, w, [getEv]⟩
        else
          match env.validateCustomDomainLinkToDefaultDomainState resourceCustomDomains
              routeCustomDomains routeId.RouteName routeId.ProfileName with
          | some err => ⟨some (Err.creatingValidate id err), d, w, [getEv]⟩
          | none =>
            if props.LinkToDefaultDomain ≠ LinkToDefaultDomainDisabled then
              let routeProps : Route :=
                ⟨some (props.setLinkToDefaultDomain LinkToDefaultDomainDisabled)⟩
              let createEv := Event.routeCreate routeCtx routeId.ResourceGroup
                routeId.ProfileName routeId.AfdEndpointName routeId.RouteName routeProps
              match w.createErr routeId.ResourceGroup routeId.ProfileName
                  routeId.AfdEndpointName routeId.RouteName routeProps with
              | some err => ⟨some (Err.creatingCreate id err), d, w, [getEv, createEv]⟩
              | none =>
                let waitEv := Event.waitForCompletion routeCtx
                match w.waitErr routeId.ResourceGroup routeId.ProfileName
                    routeId.AfdEndpointName routeId.RouteName routeProps with
                | some err =>
                  ⟨some (Err.creatingWait id err), d, w, [getEv, createEv, waitEv]⟩
                | none =>
                  let w1 := w.completed routeId.ResourceGroup routeId.ProfileName
                    routeId.AfdEndpointName routeId.RouteName routeProps
                  let o := resourceCdnFrontDoorRouteDisableLinkToDefaultDomainRead env
                    (createRecorded env d id routeId customDomains) w1
                  ⟨o.err, o.d, o.w, [getEv, createEv, waitEv] ++ o.trace⟩
            else
              let o := resourceCdnFrontDoorRouteDisableLinkToDefaultDomainRead env
                (createRecorded env d id routeId customDomains) w
              ⟨o.err, o.d, o.w, [getEv] ++ o.trace⟩

/-- The function `resourceCdnFrontDoorRouteDisableLinkToDefaultDomainCreate`. The
two deferred `locks.UnlockByID` calls run, last deferred first, after the
locked part on each of its paths. -/
def resourceCdnFrontDoorRouteDisableLinkToDefaultDomainCreate (env : Env) (d : ResourceData)
    (w : World) : Outcome :=
  let routeCtx := ForCreate d
  let customDomains := d.cdn_frontdoor_custom_domain_ids
  match env.FrontDoorRouteID d.cdn_frontdoor_route_id with
  | .error err => ⟨some (Err.creatingParse err), d, w, []⟩
  | .ok routeId =>
    match w.uuid with
    | .error err => ⟨some (Err.generatingUUID err), d, w, []⟩
    | .ok uuid =>
      let id := NewFrontDoorRouteDisableLinkToDefaultDomainID routeId.SubscriptionId
        routeId.ResourceGroup routeId.ProfileName routeId.AfdEndpointName routeId.RouteName uuid
      let w1 := w.ByID env.cdnFrontDoorRouteResourceType
      let w2 := w1.ByID env.cdnFrontDoorCustomDomainResourceType
      let o := createLocked env d w2 routeCtx customDomains routeId id
      ⟨o.err, o.d,
        (o.w.UnlockByID env.cdnFrontDoorCustomDomainResourceType).UnlockByID
          env.cdnFrontDoorRouteResourceType,
        [Event.lockByID env.cdnFrontDoorRouteResourceType,
          Event.lockByID env.cdnFrontDoorCustomDomainResourceType] ++ o.trace ++
        [Event.unlockByID env.cdnFrontDoorCustomDomainResourceType,
          Event.unlockByID env.cdnFrontDoorRouteResourceType]⟩

/-- The body of `resourceCdnFrontDoorRouteDisableLinkToDefaultDomainUpdate` from
the route `Get` (line 217) to the final `return` (line 271), i.e. the part
that runs with both locks taken when the custom-domain list changed. -/
def updateLocked (env : Env) (d : ResourceData) (w : World) (routeCtx : Context)
    (customDomains : List String) (routeId : FrontDoorRouteId)
    (id : FrontDoorRouteDisableLinkToDefaultDomainId) : Outcome :=
  let getEv := Event.routeGet routeCtx routeId.ResourceGroup routeId.ProfileName
    routeId.AfdEndpointName routeId.RouteName
  match w.routes routeId.ResourceGroup routeId.ProfileName routeId.AfdEndpointName
      routeId.RouteName with
  | .notFound _ => ⟨none, d.SetId "", w, [getEv]⟩
  | .failed err => ⟨some (Err.updatingRetrievingExisting id routeId err), d, w, [getEv]⟩
  | .ok existing =>
    match existing.RouteProperties with
    | none => ⟨some (Err.updatingPropertiesNil id routeId), d, w, [getEv]⟩
    | some props =>
      let resourceCustomDomains := d.cdn_frontdoor_custom_domain_ids
      match env.flattenCustomDomainActivatedResourceArray props.CustomDomains with
      | .error err => ⟨some (Err.passthrough err), d, w, [getEv]⟩
      | .ok routeCustomDomains =>
        if routeCustomDomains.length = 0 then
          ⟨some (Err.updatingNoCustomDomains id routeId.RouteName), d, w, [getEv]⟩
        else
          match env.validateCustomDomainLinkToDefaultDomainState resourceCustomDomains
              routeCustomDomains routeId.RouteName routeId.ProfileName with
          | some err => ⟨some (Err.updatingValidate id err), d, w, [getEv]⟩
          | none =>
            if props.LinkToDefaultDomain ≠ LinkToDefaultDomainDisabled then
              let routeProps : Route :=
                ⟨some (props.setLinkToDefaultDomain LinkToDefaultDomainDisabled)⟩
              let createEv := Event.routeCreate routeCtx routeId.ResourceGroup
                routeId.ProfileName routeId.AfdEndpointName routeId.RouteName routeProps
              match w.createErr routeId.ResourceGroup routeId.ProfileName
                  routeId.AfdEndpointName routeId.RouteName routeProps with
              | some err => ⟨some (Err.updatingCreate id err), d, w, [getEv, createEv]⟩
              | none =>
                let waitEv := Event.waitForCompletion routeCtx
                match w.waitErr routeId.ResourceGroup routeId.ProfileName
                    routeId.AfdEndpointName routeId.RouteName routeProps with
                | some err =>
                  ⟨some (Err.updatingWait id err), d, w, [getEv, createEv, waitEv]⟩
                | none =>
                  let w1 := w.completed routeId.ResourceGroup routeId.ProfileName
                    routeId.AfdEndpointName routeId.RouteName routeProps
                  let o := resourceCdnFrontDoorRouteDisableLinkToDefaultDomainRead env
                    (updateRecorded env d routeId customDomains) w1
                  ⟨o.err, o.d, o.w, [getEv, createEv, waitEv] ++ o.trace⟩
            else
              let o := resourceCdnFrontDoorRouteDisableLinkToDefaultDomainRead env
                (updateRecorded env d routeId customDomains) w
              ⟨o.err, o.d, o.w, [getEv] ++ o.trace⟩

/-- The function `resourceCdnFrontDoorRouteDisableLinkToDefaultDomainUpdate`. Its
route context comes from `timeouts.ForCreate` (line 195). The `defer`s inside
the `if` block are function-scoped: the unlocks run when the function returns. -/
def resourceCdnFrontDoorRouteDisableLinkToDefaultDomainUpdate (env : Env) (d : ResourceData)
    (w : World) : Outcome :=
  let routeCtx := ForCreate d
  if d.HasChange_cdn_frontdoor_custom_domain_ids then
    let customDomains := d.cdn_frontdoor_custom_domain_ids
    match env.FrontDoorRouteID d.cdn_frontdoor_route_id with
    | .error err => ⟨some (Err.updatingParse err), d, w, []⟩
    | .ok routeId =>
      match env.FrontDoorRouteDisableLinkToDefaultDomainID d.Id with
      | .error err => ⟨some (Err.passthrough err), d, w, []⟩
      | .ok id =>
        let w1 := w.ByID env.cdnFrontDoorRouteResourceType
        let w2 := w1.ByID env.cdnFrontDoorCustomDomainResourceType
        let o := updateLocked env d w2 routeCtx customDomains routeId id
        ⟨o.err, o.d,
          (o.w.UnlockByID env.cdnFrontDoorCustomDomainResourceType).UnlockByID
            env.cdnFrontDoorRouteResourceType,
          [Event.lockByID env.cdnFrontDoorRouteResourceType,
            Event.lockByID env.cdnFrontDoorCustomDomainResourceType] ++ o.trace ++
          [Event.unlockByID env.cdnFrontDoorCustomDomainResourceType,
            Event.unlockByID env.cdnFrontDoorRouteResourceType]⟩
  else
    resourceCdnFrontDoorRouteDisableLinkToDefaultDomainRead env d w

/-- The body of `resourceCdnFrontDoorRouteDisableLinkToDefaultDomainDelete` from
the route `Get` (line 294) to the final `return`, i.e. the part that runs with
the route lock taken. -/
def deleteLocked (env : Env) (d : ResourceData) (w : World) (ctx : Context)
    (id : FrontDoorRouteDisableLinkToDefaultDomainId) (route : FrontDoorRouteId) : Outcome :=
  let getEv := Event.routeGet ctx route.ResourceGroup route.ProfileName route.AfdEndpointName
    route.RouteName
  match w.routes route.ResourceGroup route.ProfileName route.AfdEndpointName route.RouteName with
  | .notFound _ => ⟨none, d.SetId "", w, [getEv]⟩
  | .failed err => ⟨some (Err.retrievingExistingRoute route err), d, w, [getEv]⟩
  | .ok resp =>
    match resp.RouteProperties with
    | none => ⟨some (Err.deletingPropertiesNil id route), d, w, [getEv]⟩
    | some props =>
      match env.flattenCustomDomainActivatedResourceArray props.CustomDomains with
      | .error err => ⟨some (Err.passthrough err), d, w, [getEv]⟩
      | .ok customDomains =>
        if customDomains.length = 0 then
          if props.LinkToDefaultDomain = LinkToDefaultDomainDisabled then
            let routeProps : Route :=
              ⟨some (props.setLinkToDefaultDomain LinkToDefaultDomainEnabled)⟩
            let createEv := Event.routeCreate ctx route.ResourceGroup route.ProfileName
              route.AfdEndpointName route.RouteName routeProps
            match w.createErr route.ResourceGroup route.ProfileName route.AfdEndpointName
                route.RouteName routeProps with
            | some err => ⟨some (Err.deletingCreate id err), d, w, [getEv, createEv]⟩
            | none =>
              let waitEv := Event.waitForCompletion ctx
              match w.waitErr route.ResourceGroup route.ProfileName route.AfdEndpointName
                  route.RouteName routeProps with
              | some err => ⟨some (Err.deletingWait id err), d, w, [getEv, createEv, waitEv]⟩
              | none =>
                let w1 := w.completed route.ResourceGroup route.ProfileName
                  route.AfdEndpointName route.RouteName routeProps
                ⟨none, d.SetId "", w1, [getEv, createEv, waitEv]⟩
          else
            ⟨none, d.SetId "", w, [getEv]⟩
        else
          ⟨none, d.SetId "", w, [getEv]⟩

/-- The function `resourceCdnFrontDoorRouteDisableLinkToDefaultDomainDelete`. The
route is the old value of `d.GetChange("cdn_frontdoor_route_id")`; only the
route lock is taken (lines 291-292). -/
def resourceCdnFrontDoorRouteDisableLinkToDefaultDomainDelete (env : Env) (d : ResourceData)
    (w : World) : Outcome :=
  let ctx := ForDelete d
  match env.FrontDoorRouteDisableLinkToDefaultDomainID d.Id with
  | .error err => ⟨some (Err.passthrough err), d, w, []⟩
  | .ok id =>
    let oldRoute := d.prior_cdn_frontdoor_route_id
    match env.FrontDoorRouteID oldRoute with
    | .error err => ⟨some (Err.passthrough err), d, w, []⟩
    | .ok route =>
      let w1 := w.ByID env.cdnFrontDoorRouteResourceType
      let o := deleteLocked env d w1 ctx id route
      ⟨o.err, o.d, o.w.UnlockByID env.cdnFrontDoorRouteResourceType,
        [Event.lockByID env.cdnFrontDoorRouteResourceType] ++ o.trace ++
        [Event.unlockByID env.cdnFrontDoorRouteResourceType]⟩

/-! ## The validation helper, as the spec words it -/

/-- Modelled from the spec: `validateCustomDomainLinkToDefaultDomainState` is
declared in another file of the package. The spec asks that "the configured
custom-domain set must exactly correspond to the route's actual custom domains
(order-independent set equality)" and that a configured set that does "not
exactly match the route's actual custom-domain set" fails "with a mismatch
error". -/
def validateCustomDomainLinkToDefaultDomainState
    (resourceCustomDomains routeCustomDomains : List String) (routeName routeProfile : String) :
    Option String :=
  if resourceCustomDomains.all (fun v => routeCustomDomains.contains v) &&
      routeCustomDomains.all (fun v => resourceCustomDomains.contains v) then
    none
  else
    some ("the custom domains of route " ++ routeName ++ " (profile " ++ routeProfile ++
      ") do not match the configured custom domains")

/-! ## Concrete inputs used to evaluate the functions -/

/-- An environment to run the functions in: three known route / link / domain
ids, `flatten` collecting the non-nil ids, the validation as the spec words it. -/
def exampleEnv : Env where
  FrontDoorRouteID := fun s =>
    if s = "route1" then .ok ⟨"sub", "rg", "profile", "endpoint", "route1"⟩
    else .error "not a route id"
  FrontDoorRouteDisableLinkToDefaultDomainID := fun s =>
    if s = "link1" then .ok ⟨"sub", "rg", "profile", "endpoint", "route1", "uuid1"⟩
    else .error "not a disable-link id"
  FrontDoorCustomDomainID := fun s =>
    if s = "cd1" then .ok ⟨"sub", "rg", "profile", "cd1"⟩
    else if s = "cd2" then .ok ⟨"sub", "rg", "profile", "cd2"⟩
    else .error "not a custom domain id"
  routeIdID := fun r => r.RouteName
  disableLinkIdID := fun _ => "link1"
  flattenCustomDomainActivatedResourceArray := fun input =>
    match input with
    | none => .ok []
    | some refs => .ok (refs.filterMap (fun r => r.ID))
  validateCustomDomainLinkToDefaultDomainState := validateCustomDomainLinkToDefaultDomainState
  cdnFrontDoorRouteResourceType := "azurerm_cdn_frontdoor_route"
  cdnFrontDoorCustomDomainResourceType := "azurerm_cdn_frontdoor_custom_domain"

/-- Like `exampleEnv`, but the route parser also accepts the spelling "ROUTE1"
of route1, which `ID()` writes back as "route1". -/
def exampleEnvNormalising : Env :=
  { exampleEnv with
    FrontDoorRouteID := fun s =>
      if s = "route1" ∨ s = "ROUTE1" then .ok ⟨"sub", "rg", "profile", "endpoint", "route1"⟩
      else .error "not a route id" }

/-- Route properties with the given custom domains and flag. -/
def exampleProps (customDomains : List String) (flag : LinkToDefaultDomain) : RouteProperties where
  CustomDomains := some (customDomains.map (fun v => ⟨some v, some true⟩))
  OriginGroup := some "og"
  OriginPath := none
  RuleSets := none
  SupportedProtocols := some ["Https"]
  PatternsToMatch := some ["/*"]
  ForwardingProtocol := "MatchRequest"
  LinkToDefaultDomain := flag
  HTTPSRedirect := "Enabled"
  EnabledState := "Enabled"

/-- A world whose only route is rg/profile/endpoint/route1, answered with
`route1`; custom domains cd1 and cd2 exist; no call fails; no lock is held. -/
def exampleWorld (route1 : RouteGetResult) : World where
  routes := fun rg p e r =>
    if rg = "rg" ∧ p = "profile" ∧ e = "endpoint" ∧ r = "route1" then route1
    else .notFound "404"
  createErr := fun _ _ _ _ _ => none
  waitErr := fun _ _ _ _ _ => none
  customDomains := fun _ _ n => if n = "cd1" ∨ n = "cd2" then none else some "404"
  uuid := .ok "uuid1"
  held := []

/-- Resource data for link1 on route1 with the given configured and prior
custom-domain lists. -/
def exampleData (customDomains prior : List String) : ResourceData where
  Id := "link1"
  cdn_frontdoor_route_id := "route1"
  cdn_frontdoor_custom_domain_ids := customDomains
  prior_cdn_frontdoor_route_id := "route1"
  prior_cdn_frontdoor_custom_domain_ids := prior
  Timeouts := resourceCdnFrontDoorRouteDisableLinkToDefaultDomain_Timeouts


/-! ## Properties of lock / remote-call traces -/

/-- The event is a call on the route client that reads or mutates a route. -/
def Event.isRouteCall (e : Event) : Bool :=
  e.isRouteGet || e.isRouteCreate

/-- The locks held after running `trace` from the held locks `held`: a lock
call adds its name, an unlock call removes one occurrence of its name. -/
def heldAfter : List String → List Event → List String
  | held, [] => held
  | held, Event.lockByID n :: t => heldAfter (n :: held) t
  | held, Event.unlockByID n :: t => heldAfter (held.erase n) t
  | held, _ :: t => heldAfter held t

/-- Every route call (Get or Create) of `trace`, run from the held locks
`held`, is issued while all the locks `names` are held. -/
def routeCallsUnderLocks (names : List String) : List String → List Event → Bool
  | _, [] => true
  | held, Event.lockByID n :: t => routeCallsUnderLocks names (n :: held) t
  | held, Event.unlockByID n :: t => routeCallsUnderLocks names (held.erase n) t
  | held, e :: t =>
    (if e.isRouteCall then names.all (fun n => held.contains n) else true) &&
      routeCallsUnderLocks names held t

/-- The names locked by the lock calls of a trace, in order. -/
def lockedNames : List Event → List String
  | [] => []
  | Event.lockByID n :: t => n :: lockedNames t
  | _ :: t => lockedNames t

/-! ## General facts about the traces -/

theorem readCustomDomainsLoop_trace (env : Env) (w : World) (ctx : Context)
    (id : FrontDoorRouteDisableLinkToDefaultDomainId) (vs : List String) :
    ∀ e ∈ (readCustomDomainsLoop env w ctx id vs).2, e.isCustomDomainGet = true := by
  induction vs with
  | nil => simp [readCustomDomainsLoop]
  | cons v rest ih =>
    cases hp : env.FrontDoorCustomDomainID v with
    | error err => simp [readCustomDomainsLoop, hp]
    | ok cdId =>
      cases hg : w.customDomains cdId.ResourceGroup cdId.ProfileName cdId.CustomDomainName with
      | some err => simp [readCustomDomainsLoop, hp, hg, Event.isCustomDomainGet]
      | none =>
        simp only [readCustomDomainsLoop, hp, hg, List.mem_cons]
        rintro e (rfl | he)
        · rfl
        · exact ih e he

theorem read_world (env : Env) (d : ResourceData) (w : World) :
    (resourceCdnFrontDoorRouteDisableLinkToDefaultDomainRead env d w).w = w := by
  unfold resourceCdnFrontDoorRouteDisableLinkToDefaultDomainRead
  cases env.FrontDoorRouteDisableLinkToDefaultDomainID d.Id with
  | error err => rfl
  | ok id =>
    cases env.FrontDoorRouteID d.cdn_frontdoor_route_id with
    | error err => rfl
    | ok routeId =>
      simp only []
      cases w.routes routeId.ResourceGroup routeId.ProfileName routeId.AfdEndpointName
        routeId.RouteName <;> rfl

theorem read_d_fields (env : Env) (d : ResourceData) (w : World) :
    (resourceCdnFrontDoorRouteDisableLinkToDefaultDomainRead env d w).d.cdn_frontdoor_route_id =
      d.cdn_frontdoor_route_id ∧
    (resourceCdnFrontDoorRouteDisableLinkToDefaultDomainRead env d w).d.cdn_frontdoor_custom_domain_ids
      = d.cdn_frontdoor_custom_domain_ids := by
  unfold resourceCdnFrontDoorRouteDisableLinkToDefaultDomainRead
  cases env.FrontDoorRouteDisableLinkToDefaultDomainID d.Id with
  | error err => exact ⟨rfl, rfl⟩
  | ok id =>
    cases env.FrontDoorRouteID d.cdn_frontdoor_route_id with
    | error err => exact ⟨rfl, rfl⟩
    | ok routeId =>
      simp only []
      cases w.routes routeId.ResourceGroup routeId.ProfileName routeId.AfdEndpointName
        routeId.RouteName <;> exact ⟨rfl, rfl⟩

/-- Read keeps the identifier, except when its own route `Get` answers
not-found, where it clears it. -/
theorem read_d_Id (env : Env) (d : ResourceData) (w : World) :
    (resourceCdnFrontDoorRouteDisableLinkToDefaultDomainRead env d w).d.Id = d.Id ∨
    ((resourceCdnFrontDoorRouteDisableLinkToDefaultDomainRead env d w).d.Id = "" ∧
      ∃ routeId err,
        env.FrontDoorRouteID d.cdn_frontdoor_route_id = Except.ok routeId ∧
        w.routes routeId.ResourceGroup routeId.ProfileName routeId.AfdEndpointName
          routeId.RouteName = RouteGetResult.notFound err) := by
  rcases hi : env.FrontDoorRouteDisableLinkToDefaultDomainID d.Id with e | id
  · left; simp [resourceCdnFrontDoorRouteDisableLinkToDefaultDomainRead, hi]
  · rcases hr : env.FrontDoorRouteID d.cdn_frontdoor_route_id with e | routeId
    · left; simp [resourceCdnFrontDoorRouteDisableLinkToDefaultDomainRead, hi, hr]
    · rcases hg : w.routes routeId.ResourceGroup routeId.ProfileName routeId.AfdEndpointName
        routeId.RouteName with existing | e1 | e1
      · left; simp [resourceCdnFrontDoorRouteDisableLinkToDefaultDomainRead, hi, hr, hg]
      · right
        refine ⟨?_, routeId, e1, rfl, hg⟩
        simp [resourceCdnFrontDoorRouteDisableLinkToDefaultDomainRead, hi, hr, hg,
          ResourceData.SetId]
      · left; simp [resourceCdnFrontDoorRouteDisableLinkToDefaultDomainRead, hi, hr, hg]

theorem read_trace (env : Env) (d : ResourceData) (w : World) :
    ∀ e ∈ (resourceCdnFrontDoorRouteDisableLinkToDefaultDomainRead env d w).trace,
      e.isRouteGet = true ∨ e.isCustomDomainGet = true := by
  unfold resourceCdnFrontDoorRouteDisableLinkToDefaultDomainRead
  cases env.FrontDoorRouteDisableLinkToDefaultDomainID d.Id with
  | error err => simp
  | ok id =>
    cases env.FrontDoorRouteID d.cdn_frontdoor_route_id with
    | error err => simp
    | ok routeId =>
      simp only []
      cases w.routes routeId.ResourceGroup routeId.ProfileName routeId.AfdEndpointName
        routeId.RouteName with
      | notFound err => simp [Event.isRouteGet]
      | failed err => simp [Event.isRouteGet]
      | ok existing =>
        simp only [List.mem_cons]
        rintro e (rfl | he)
        · left; rfl
        · right; exact readCustomDomainsLoop_trace env w _ id _ e he

theorem read_mutatingCalls (env : Env) (d : ResourceData) (w : World) :
    mutatingCalls (resourceCdnFrontDoorRouteDisableLinkToDefaultDomainRead env d w).trace = [] := by
  unfold mutatingCalls
  rw [List.filter_eq_nil_iff]
  intro e he
  rcases read_trace env d w e he with h | h <;> cases e <;> simp_all [Event.isRouteGet, Event.isCustomDomainGet, Event.isRouteCreate]

theorem read_noLockCalls (env : Env) (d : ResourceData) (w : World) :
    ∀ e ∈ (resourceCdnFrontDoorRouteDisableLinkToDefaultDomainRead env d w).trace,
      e.isLockCall = false ∧ e.isRouteCreate = false := by
  intro e he
  rcases read_trace env d w e he with h | h <;> cases e <;>
    simp_all [Event.isRouteGet, Event.isCustomDomainGet, Event.isLockCall, Event.isRouteCreate]

/-- The shape of every trace of the locked part of Create: the route `Get`, then
either nothing or the mutating call (with or without the wait), then events of
`Read`; the mutating call is only there on the path where every check passed
and the fetched flag was not `Disabled`; the held locks are not touched. -/
theorem createLocked_shape (env : Env) (d : ResourceData) (w : World) (ctx : Context)
    (cds : List String) (routeId : FrontDoorRouteId)
    (id : FrontDoorRouteDisableLinkToDefaultDomainId) :
    ∃ mid tail : List Event,
      (createLocked env d w ctx cds routeId id).trace =
        Event.routeGet ctx routeId.ResourceGroup routeId.ProfileName routeId.AfdEndpointName
          routeId.RouteName :: (mid ++ tail) ∧
      (∀ e ∈ tail, e.isRouteGet = true ∨ e.isCustomDomainGet = true) ∧
      (createLocked env d w ctx cds routeId id).w.held = w.held ∧
      (mid = [] ∨
        ∃ existing props l,
          w.routes routeId.ResourceGroup routeId.ProfileName routeId.AfdEndpointName
            routeId.RouteName = RouteGetResult.ok existing ∧
          existing.RouteProperties = some props ∧
          env.flattenCustomDomainActivatedResourceArray props.CustomDomains = Except.ok l ∧
          l.length ≠ 0 ∧
          env.validateCustomDomainLinkToDefaultDomainState d.cdn_frontdoor_custom_domain_ids l
            routeId.RouteName routeId.ProfileName = none ∧
          props.LinkToDefaultDomain ≠ LinkToDefaultDomainDisabled ∧
          (mid = [Event.routeCreate ctx routeId.ResourceGroup routeId.ProfileName
              routeId.AfdEndpointName routeId.RouteName
              ⟨some (props.setLinkToDefaultDomain LinkToDefaultDomainDisabled)⟩] ∨
            mid = [Event.routeCreate ctx routeId.ResourceGroup routeId.ProfileName
              routeId.AfdEndpointName routeId.RouteName
              ⟨some (props.setLinkToDefaultDomain LinkToDefaultDomainDisabled)⟩,
              Event.waitForCompletion ctx])) := by
  rcases h1 : w.routes routeId.ResourceGroup routeId.ProfileName routeId.AfdEndpointName
    routeId.RouteName with existing | e1 | e1
  · rcases h2 : existing.RouteProperties with _ | props
    · exact ⟨[], [], by simp [createLocked, h1, h2]⟩
    · rcases h3 : env.flattenCustomDomainActivatedResourceArray props.CustomDomains with e3 | l
      · exact ⟨[], [], by simp [createLocked, h1, h2, h3]⟩
      · by_cases h4 : l.length = 0
        · exact ⟨[], [], by simp [createLocked, h1, h2, h3, h4]⟩
        · rcases h5 : env.validateCustomDomainLinkToDefaultDomainState
            d.cdn_frontdoor_custom_domain_ids l routeId.RouteName routeId.ProfileName with _ | e5
          · by_cases h6 : props.LinkToDefaultDomain = LinkToDefaultDomainDisabled
            · refine ⟨[], (resourceCdnFrontDoorRouteDisableLinkToDefaultDomainRead env
                (createRecorded env d id routeId cds) w).trace,
                ?_, read_trace _ _ _, ?_, Or.inl rfl⟩
              · simp [createLocked, h1, h2, h3, h4, h5, h6]
              · simp [createLocked, h1, h2, h3, h4, h5, h6, read_world]
            · rcases h7 : w.createErr routeId.ResourceGroup routeId.ProfileName
                routeId.AfdEndpointName routeId.RouteName
                ⟨some (props.setLinkToDefaultDomain LinkToDefaultDomainDisabled)⟩
                with _ | e7
              · rcases h8 : w.waitErr routeId.ResourceGroup routeId.ProfileName
                  routeId.AfdEndpointName routeId.RouteName
                  ⟨some (props.setLinkToDefaultDomain LinkToDefaultDomainDisabled)⟩
                  with _ | e8
                · refine ⟨_, (resourceCdnFrontDoorRouteDisableLinkToDefaultDomainRead env
                    (createRecorded env d id routeId cds) (w.completed routeId.ResourceGroup routeId.ProfileName
                      routeId.AfdEndpointName routeId.RouteName
                      ⟨some (props.setLinkToDefaultDomain LinkToDefaultDomainDisabled)⟩)).trace, ?_, read_trace _ _ _, ?_,
                    Or.inr ⟨existing, props, l, rfl, h2, h3, h4, h5, h6, Or.inr rfl⟩⟩
                  · simp [createLocked, h1, h2, h3, h4, h5, h6, h7, h8]
                  · simp [createLocked, h1, h2, h3, h4, h5, h6, h7, h8, read_world,
                      World.completed]
                · refine ⟨_, [], ?_, by simp, ?_,
                    Or.inr ⟨existing, props, l, rfl, h2, h3, h4, h5, h6, Or.inr rfl⟩⟩
                  · simp [createLocked, h1, h2, h3, h4, h5, h6, h7, h8]
                  · simp [createLocked, h1, h2, h3, h4, h5, h6, h7, h8]
              · refine ⟨_, [], ?_, by simp, ?_,
                  Or.inr ⟨existing, props, l, rfl, h2, h3, h4, h5, h6, Or.inl rfl⟩⟩
                · simp [createLocked, h1, h2, h3, h4, h5, h6, h7]
                · simp [createLocked, h1, h2, h3, h4, h5, h6, h7]
          · exact ⟨[], [], by simp [createLocked, h1, h2, h3, h4, h5]⟩
  · exact ⟨[], [], by simp [createLocked, h1]⟩
  · exact ⟨[], [], by simp [createLocked, h1]⟩

/-- The shape of every trace of the locked part of Update: the route `Get`, then
either nothing or the mutating call (with or without the wait), then events of
`Read`; the mutating call is only there on the path where every check passed
and the fetched flag was not `Disabled`; the held locks are not touched. -/
theorem updateLocked_shape (env : Env) (d : ResourceData) (w : World) (ctx : Context)
    (cds : List String) (routeId : FrontDoorRouteId)
    (id : FrontDoorRouteDisableLinkToDefaultDomainId) :
    ∃ mid tail : List Event,
      (updateLocked env d w ctx cds routeId id).trace =
        Event.routeGet ctx routeId.ResourceGroup routeId.ProfileName routeId.AfdEndpointName
          routeId.RouteName :: (mid ++ tail) ∧
      (∀ e ∈ tail, e.isRouteGet = true ∨ e.isCustomDomainGet = true) ∧
      (updateLocked env d w ctx cds routeId id).w.held = w.held ∧
      (mid = [] ∨
        ∃ existing props l,
          w.routes routeId.ResourceGroup routeId.ProfileName routeId.AfdEndpointName
            routeId.RouteName = RouteGetResult.ok existing ∧
          existing.RouteProperties = some props ∧
          env.flattenCustomDomainActivatedResourceArray props.CustomDomains = Except.ok l ∧
          l.length ≠ 0 ∧
          env.validateCustomDomainLinkToDefaultDomainState d.cdn_frontdoor_custom_domain_ids l
            routeId.RouteName routeId.ProfileName = none ∧
          props.LinkToDefaultDomain ≠ LinkToDefaultDomainDisabled ∧
          (mid = [Event.routeCreate ctx routeId.ResourceGroup routeId.ProfileName
              routeId.AfdEndpointName routeId.RouteName
              ⟨some (props.setLinkToDefaultDomain LinkToDefaultDomainDisabled)⟩] ∨
            mid = [Event.routeCreate ctx routeId.ResourceGroup routeId.ProfileName
              routeId.AfdEndpointName routeId.RouteName
              ⟨some (props.setLinkToDefaultDomain LinkToDefaultDomainDisabled)⟩,
              Event.waitForCompletion ctx])) := by
  rcases h1 : w.routes routeId.ResourceGroup routeId.ProfileName routeId.AfdEndpointName
    routeId.RouteName with existing | e1 | e1
  · rcases h2 : existing.RouteProperties with _ | props
    · exact ⟨[], [], by simp [updateLocked, h1, h2]⟩
    · rcases h3 : env.flattenCustomDomainActivatedResourceArray props.CustomDomains with e3 | l
      · exact ⟨[], [], by simp [updateLocked, h1, h2, h3]⟩
      · by_cases h4 : l.length = 0
        · exact ⟨[], [], by simp [updateLocked, h1, h2, h3, h4]⟩
        · rcases h5 : env.validateCustomDomainLinkToDefaultDomainState
            d.cdn_frontdoor_custom_domain_ids l routeId.RouteName routeId.ProfileName with _ | e5
          · by_cases h6 : props.LinkToDefaultDomain = LinkToDefaultDomainDisabled
            · refine ⟨[], (resourceCdnFrontDoorRouteDisableLinkToDefaultDomainRead env
                (updateRecorded env d routeId cds) w).trace,
                ?_, read_trace _ _ _, ?_, Or.inl rfl⟩
              · simp [updateLocked, h1, h2, h3, h4, h5, h6]
              · simp [updateLocked, h1, h2, h3, h4, h5, h6, read_world]
            · rcases h7 : w.createErr routeId.ResourceGroup routeId.ProfileName
                routeId.AfdEndpointName routeId.RouteName
                ⟨some (props.setLinkToDefaultDomain LinkToDefaultDomainDisabled)⟩
                with _ | e7
              · rcases h8 : w.waitErr routeId.ResourceGroup routeId.ProfileName
                  routeId.AfdEndpointName routeId.RouteName
                  ⟨some (props.setLinkToDefaultDomain LinkToDefaultDomainDisabled)⟩
                  with _ | e8
                · refine ⟨_, (resourceCdnFrontDoorRouteDisableLinkToDefaultDomainRead env
                    (updateRecorded env d routeId cds) (w.completed routeId.ResourceGroup routeId.ProfileName
                      routeId.AfdEndpointName routeId.RouteName
                      ⟨some (props.setLinkToDefaultDomain LinkToDefaultDomainDisabled)⟩)).trace, ?_, read_trace _ _ _, ?_,
                    Or.inr ⟨existing, props, l, rfl, h2, h3, h4, h5, h6, Or.inr rfl⟩⟩
                  · simp [updateLocked, h1, h2, h3, h4, h5, h6, h7, h8]
                  · simp [updateLocked, h1, h2, h3, h4, h5, h6, h7, h8, read_world,
                      World.completed]
                · refine ⟨_, [], ?_, by simp, ?_,
                    Or.inr ⟨existing, props, l, rfl, h2, h3, h4, h5, h6, Or.inr rfl⟩⟩
                  · simp [updateLocked, h1, h2, h3, h4, h5, h6, h7, h8]
                  · simp [updateLocked, h1, h2, h3, h4, h5, h6, h7, h8]
              · refine ⟨_, [], ?_, by simp, ?_,
                  Or.inr ⟨existing, props, l, rfl, h2, h3, h4, h5, h6, Or.inl rfl⟩⟩
                · simp [updateLocked, h1, h2, h3, h4, h5, h6, h7]
                · simp [updateLocked, h1, h2, h3, h4, h5, h6, h7]
          · exact ⟨[], [], by simp [updateLocked, h1, h2, h3, h4, h5]⟩
  · exact ⟨[], [], by simp [updateLocked, h1]⟩
  · exact ⟨[], [], by simp [updateLocked, h1]⟩

/-- The shape of every trace of the locked part of Delete: the route `Get`, then
either nothing (and then the world is as it was) or the mutating call (with or
without the wait); the mutating call is only there when the fetched route has
no custom domain and its flag is `Disabled`; the held locks are not touched. -/
theorem deleteLocked_shape (env : Env) (d : ResourceData) (w : World) (ctx : Context)
    (id : FrontDoorRouteDisableLinkToDefaultDomainId) (route : FrontDoorRouteId) :
    ∃ mid : List Event,
      (deleteLocked env d w ctx id route).trace =
        Event.routeGet ctx route.ResourceGroup route.ProfileName route.AfdEndpointName
          route.RouteName :: mid ∧
      (deleteLocked env d w ctx id route).w.held = w.held ∧
      ((mid = [] ∧ (deleteLocked env d w ctx id route).w = w) ∨
        ∃ resp props l,
          w.routes route.ResourceGroup route.ProfileName route.AfdEndpointName
            route.RouteName = RouteGetResult.ok resp ∧
          resp.RouteProperties = some props ∧
          env.flattenCustomDomainActivatedResourceArray props.CustomDomains = Except.ok l ∧
          l.length = 0 ∧
          props.LinkToDefaultDomain = LinkToDefaultDomainDisabled ∧
          (mid = [Event.routeCreate ctx route.ResourceGroup route.ProfileName
              route.AfdEndpointName route.RouteName
              ⟨some (props.setLinkToDefaultDomain LinkToDefaultDomainEnabled)⟩] ∨
            mid = [Event.routeCreate ctx route.ResourceGroup route.ProfileName
              route.AfdEndpointName route.RouteName
              ⟨some (props.setLinkToDefaultDomain LinkToDefaultDomainEnabled)⟩,
              Event.waitForCompletion ctx])) := by
  rcases h1 : w.routes route.ResourceGroup route.ProfileName route.AfdEndpointName
    route.RouteName with resp | e1 | e1
  · rcases h2 : resp.RouteProperties with _ | props
    · exact ⟨[], by simp [deleteLocked, h1, h2]⟩
    · rcases h3 : env.flattenCustomDomainActivatedResourceArray props.CustomDomains with e3 | l
      · exact ⟨[], by simp [deleteLocked, h1, h2, h3]⟩
      · by_cases h4 : l.length = 0
        · by_cases h6 : props.LinkToDefaultDomain = LinkToDefaultDomainDisabled
          · rcases h7 : w.createErr route.ResourceGroup route.ProfileName
              route.AfdEndpointName route.RouteName
              ⟨some (props.setLinkToDefaultDomain LinkToDefaultDomainEnabled)⟩
              with _ | e7
            · rcases h8 : w.waitErr route.ResourceGroup route.ProfileName
                route.AfdEndpointName route.RouteName
                ⟨some (props.setLinkToDefaultDomain LinkToDefaultDomainEnabled)⟩
                with _ | e8
              · refine ⟨_, ?_, ?_, Or.inr ⟨resp, props, l, rfl, h2, h3, h4, h6, Or.inr rfl⟩⟩
                · simp [deleteLocked, h1, h2, h3, h4, h6, h7, h8]
                · simp [deleteLocked, h1, h2, h3, h4, h6, h7, h8, World.completed]
              · refine ⟨_, ?_, ?_, Or.inr ⟨resp, props, l, rfl, h2, h3, h4, h6, Or.inr rfl⟩⟩
                · simp [deleteLocked, h1, h2, h3, h4, h6, h7, h8]
                · simp [deleteLocked, h1, h2, h3, h4, h6, h7, h8]
            · refine ⟨_, ?_, ?_, Or.inr ⟨resp, props, l, rfl, h2, h3, h4, h6, Or.inl rfl⟩⟩
              · simp [deleteLocked, h1, h2, h3, h4, h6, h7]
              · simp [deleteLocked, h1, h2, h3, h4, h6, h7]
          · exact ⟨[], by simp [deleteLocked, h1, h2, h3, h4, h6]⟩
        · exact ⟨[], by simp [deleteLocked, h1, h2, h3, h4]⟩
  · exact ⟨[], by simp [deleteLocked, h1]⟩
  · exact ⟨[], by simp [deleteLocked, h1]⟩

theorem World.UnlockByID_ByID (w : World) (name : String) :
    (w.ByID name).UnlockByID name = w := by
  cases w
  simp [World.ByID, World.UnlockByID]

theorem mutatingCalls_append (xs ys : List Event) :
    mutatingCalls (xs ++ ys) = mutatingCalls xs ++ mutatingCalls ys := by
  simp [mutatingCalls]

theorem mutatingCalls_of_gets (tail : List Event)
    (h : ∀ e ∈ tail, e.isRouteGet = true ∨ e.isCustomDomainGet = true) :
    mutatingCalls tail = [] := by
  unfold mutatingCalls
  rw [List.filter_eq_nil_iff]
  intro e he
  rcases h e he with h | h <;> cases e <;>
    simp_all [Event.isRouteGet, Event.isCustomDomainGet, Event.isRouteCreate]

/-- The mutating calls of Create: none, or exactly one, and then the route was
fetched with properties, has a custom domain, passed the validation and
its flag was not `Disabled`; the call carries the fetched properties with the
flag set to `Disabled`, addressed like the `Get`. -/
theorem create_mutatingCalls (env : Env) (d : ResourceData) (w : World) :
    mutatingCalls (resourceCdnFrontDoorRouteDisableLinkToDefaultDomainCreate env d w).trace = [] ∨
    ∃ routeId existing props l,
      env.FrontDoorRouteID d.cdn_frontdoor_route_id = Except.ok routeId ∧
      w.routes routeId.ResourceGroup routeId.ProfileName routeId.AfdEndpointName
        routeId.RouteName = RouteGetResult.ok existing ∧
      existing.RouteProperties = some props ∧
      env.flattenCustomDomainActivatedResourceArray props.CustomDomains = Except.ok l ∧
      l.length ≠ 0 ∧
      env.validateCustomDomainLinkToDefaultDomainState d.cdn_frontdoor_custom_domain_ids l
        routeId.RouteName routeId.ProfileName = none ∧
      props.LinkToDefaultDomain ≠ LinkToDefaultDomainDisabled ∧
      mutatingCalls (resourceCdnFrontDoorRouteDisableLinkToDefaultDomainCreate env d w).trace =
        [Event.routeCreate (ForCreate d) routeId.ResourceGroup routeId.ProfileName
          routeId.AfdEndpointName routeId.RouteName
          ⟨some (props.setLinkToDefaultDomain LinkToDefaultDomainDisabled)⟩] := by
  rcases hr : env.FrontDoorRouteID d.cdn_frontdoor_route_id with e | routeId
  · left; simp [resourceCdnFrontDoorRouteDisableLinkToDefaultDomainCreate, hr, mutatingCalls]
  · rcases hu : w.uuid with e | uuid
    · left; simp [resourceCdnFrontDoorRouteDisableLinkToDefaultDomainCreate, hr, hu, mutatingCalls]
    · obtain ⟨mid, tail, ht, htail, -, hmid⟩ := createLocked_shape env d
        ((w.ByID env.cdnFrontDoorRouteResourceType).ByID env.cdnFrontDoorCustomDomainResourceType)
        (ForCreate d) d.cdn_frontdoor_custom_domain_ids routeId
        (NewFrontDoorRouteDisableLinkToDefaultDomainID routeId.SubscriptionId
          routeId.ResourceGroup routeId.ProfileName routeId.AfdEndpointName routeId.RouteName uuid)
      have hm : mutatingCalls
          (resourceCdnFrontDoorRouteDisableLinkToDefaultDomainCreate env d w).trace =
          mutatingCalls mid := by
        have ht0 : tail.filter Event.isRouteCreate = [] := mutatingCalls_of_gets tail htail
        simp only [resourceCdnFrontDoorRouteDisableLinkToDefaultDomainCreate, hr, hu, ht]
        simp [mutatingCalls, Event.isRouteCreate, List.filter_cons, ht0]
      rcases hmid with rfl | ⟨existing, props, l, h1, h2, h3, h4, h5, h6, hmid⟩
      · left; rw [hm]; rfl
      · right
        refine ⟨routeId, existing, props, l, rfl, h1, h2, h3, h4, h5, h6, ?_⟩
        rw [hm]
        rcases hmid with rfl | rfl <;> simp [mutatingCalls, Event.isRouteCreate]

/-- The mutating calls of Update: as for Create (the context is the one
Update derives, `timeouts.ForCreate`). -/
theorem update_mutatingCalls (env : Env) (d : ResourceData) (w : World) :
    mutatingCalls (resourceCdnFrontDoorRouteDisableLinkToDefaultDomainUpdate env d w).trace = [] ∨
    ∃ routeId existing props l,
      d.HasChange_cdn_frontdoor_custom_domain_ids = true ∧
      env.FrontDoorRouteID d.cdn_frontdoor_route_id = Except.ok routeId ∧
      w.routes routeId.ResourceGroup routeId.ProfileName routeId.AfdEndpointName
        routeId.RouteName = RouteGetResult.ok existing ∧
      existing.RouteProperties = some props ∧
      env.flattenCustomDomainActivatedResourceArray props.CustomDomains = Except.ok l ∧
      l.length ≠ 0 ∧
      env.validateCustomDomainLinkToDefaultDomainState d.cdn_frontdoor_custom_domain_ids l
        routeId.RouteName routeId.ProfileName = none ∧
      props.LinkToDefaultDomain ≠ LinkToDefaultDomainDisabled ∧
      mutatingCalls (resourceCdnFrontDoorRouteDisableLinkToDefaultDomainUpdate env d w).trace =
        [Event.routeCreate (ForCreate d) routeId.ResourceGroup routeId.ProfileName
          routeId.AfdEndpointName routeId.RouteName
          ⟨some (props.setLinkToDefaultDomain LinkToDefaultDomainDisabled)⟩] := by
  by_cases hc : d.HasChange_cdn_frontdoor_custom_domain_ids = true
  · rcases hr : env.FrontDoorRouteID d.cdn_frontdoor_route_id with e | routeId
    · left
      simp [resourceCdnFrontDoorRouteDisableLinkToDefaultDomainUpdate, hc, hr, mutatingCalls]
    · rcases hi : env.FrontDoorRouteDisableLinkToDefaultDomainID d.Id with e | id
      · left
        simp [resourceCdnFrontDoorRouteDisableLinkToDefaultDomainUpdate, hc, hr, hi,
          mutatingCalls]
      · obtain ⟨mid, tail, ht, htail, -, hmid⟩ := updateLocked_shape env d
          ((w.ByID env.cdnFrontDoorRouteResourceType).ByID
            env.cdnFrontDoorCustomDomainResourceType)
          (ForCreate d) d.cdn_frontdoor_custom_domain_ids routeId id
        have hm : mutatingCalls
            (resourceCdnFrontDoorRouteDisableLinkToDefaultDomainUpdate env d w).trace =
            mutatingCalls mid := by
          have ht0 : tail.filter Event.isRouteCreate = [] := mutatingCalls_of_gets tail htail
          simp only [resourceCdnFrontDoorRouteDisableLinkToDefaultDomainUpdate, hc, hr, hi, ht,
            if_true]
          simp [mutatingCalls, Event.isRouteCreate, List.filter_cons, ht0]
        rcases hmid with rfl | ⟨existing, props, l, h1, h2, h3, h4, h5, h6, hmid⟩
        · left; rw [hm]; rfl
        · right
          refine ⟨routeId, existing, props, l, hc, rfl, h1, h2, h3, h4, h5, h6, ?_⟩
          rw [hm]
          rcases hmid with rfl | rfl <;> simp [mutatingCalls, Event.isRouteCreate]
  · left
    simp only [resourceCdnFrontDoorRouteDisableLinkToDefaultDomainUpdate, hc]
    exact read_mutatingCalls env d w

/-- The mutating calls of Delete: none, or exactly one, and then the route was
fetched with properties, has no custom domain and its flag was `Disabled`; the
call carries the fetched properties with the flag set to `Enabled`. -/
theorem delete_mutatingCalls (env : Env) (d : ResourceData) (w : World) :
    mutatingCalls (resourceCdnFrontDoorRouteDisableLinkToDefaultDomainDelete env d w).trace = [] ∨
    ∃ route resp props l,
      env.FrontDoorRouteID d.prior_cdn_frontdoor_route_id = Except.ok route ∧
      w.routes route.ResourceGroup route.ProfileName route.AfdEndpointName
        route.RouteName = RouteGetResult.ok resp ∧
      resp.RouteProperties = some props ∧
      env.flattenCustomDomainActivatedResourceArray props.CustomDomains = Except.ok l ∧
      l.length = 0 ∧
      props.LinkToDefaultDomain = LinkToDefaultDomainDisabled ∧
      mutatingCalls (resourceCdnFrontDoorRouteDisableLinkToDefaultDomainDelete env d w).trace =
        [Event.routeCreate (ForDelete d) route.ResourceGroup route.ProfileName
          route.AfdEndpointName route.RouteName
          ⟨some (props.setLinkToDefaultDomain LinkToDefaultDomainEnabled)⟩] := by
  rcases hi : env.FrontDoorRouteDisableLinkToDefaultDomainID d.Id with e | id
  · left; simp [resourceCdnFrontDoorRouteDisableLinkToDefaultDomainDelete, hi, mutatingCalls]
  · rcases hr : env.FrontDoorRouteID d.prior_cdn_frontdoor_route_id with e | route
    · left
      simp [resourceCdnFrontDoorRouteDisableLinkToDefaultDomainDelete, hi, hr, mutatingCalls]
    · obtain ⟨mid, ht, -, hmid⟩ := deleteLocked_shape env d
        (w.ByID env.cdnFrontDoorRouteResourceType) (ForDelete d) id route
      have hm : mutatingCalls
          (resourceCdnFrontDoorRouteDisableLinkToDefaultDomainDelete env d w).trace =
          mutatingCalls mid := by
        simp only [resourceCdnFrontDoorRouteDisableLinkToDefaultDomainDelete, hi, hr, ht]
        simp [mutatingCalls, Event.isRouteCreate, List.filter_cons]
      rcases hmid with ⟨rfl, -⟩ | ⟨resp, props, l, h1, h2, h3, h4, h6, hmid⟩
      · left; rw [hm]; rfl
      · right
        refine ⟨route, resp, props, l, rfl, h1, h2, h3, h4, h6, ?_⟩
        rw [hm]
        rcases hmid with rfl | rfl <;> simp [mutatingCalls, Event.isRouteCreate]

theorem validate_eq_none_iff (a b : List String) (routeName routeProfile : String) :
    validateCustomDomainLinkToDefaultDomainState a b routeName routeProfile = none ↔
      ∀ v, v ∈ a ↔ v ∈ b := by
  unfold validateCustomDomainLinkToDefaultDomainState
  constructor
  · intro h
    split at h
    · rename_i hc
      simp only [Bool.and_eq_true, List.all_eq_true, List.contains_eq_any_beq,
        List.any_eq_true, beq_iff_eq, exists_eq_right'] at hc
      exact fun v => ⟨fun hv => hc.1 v hv, fun hv => hc.2 v hv⟩
    · cases h
  · intro h
    rw [if_pos]
    simp only [Bool.and_eq_true, List.all_eq_true, List.contains_eq_any_beq,
      List.any_eq_true, beq_iff_eq, exists_eq_right']
    exact ⟨fun v hv => (h v).1 hv, fun v hv => (h v).2 hv⟩

theorem readCustomDomainsLoop_eq_none_iff (env : Env) (w : World) (ctx : Context)
    (id : FrontDoorRouteDisableLinkToDefaultDomainId) (vs : List String) :
    (readCustomDomainsLoop env w ctx id vs).1 = none ↔
      ∀ u ∈ vs, ∃ cu, env.FrontDoorCustomDomainID u = Except.ok cu ∧
        w.customDomains cu.ResourceGroup cu.ProfileName cu.CustomDomainName = none := by
  induction vs with
  | nil => simp [readCustomDomainsLoop]
  | cons v rest ih =>
    rcases hp : env.FrontDoorCustomDomainID v with err | cdId
    · simp [readCustomDomainsLoop, hp]
    · rcases hg : w.customDomains cdId.ResourceGroup cdId.ProfileName cdId.CustomDomainName
        with _ | err
      · simp [readCustomDomainsLoop, hp, hg, ih]
      · simp [readCustomDomainsLoop, hp, hg]

theorem readCustomDomainsLoop_first_failure (env : Env) (w : World) (ctx : Context)
    (id : FrontDoorRouteDisableLinkToDefaultDomainId) (pre : List String) (v : String)
    (post : List String) (cdId : FrontDoorCustomDomainId) (err : String)
    (hpre : ∀ u ∈ pre, ∃ cu, env.FrontDoorCustomDomainID u = Except.ok cu ∧
      w.customDomains cu.ResourceGroup cu.ProfileName cu.CustomDomainName = none)
    (hv : env.FrontDoorCustomDomainID v = Except.ok cdId)
    (hg : w.customDomains cdId.ResourceGroup cdId.ProfileName cdId.CustomDomainName = some err) :
    (readCustomDomainsLoop env w ctx id (pre ++ v :: post)).1 =
      some (Err.retrievingExistingCustomDomain cdId err) := by
  induction pre with
  | nil => simp [readCustomDomainsLoop, hv, hg]
  | cons u rest ih =>
    obtain ⟨cu, hu, hgu⟩ := hpre u (List.mem_cons_self u rest)
    have ih2 := ih (fun x hx => hpre x (List.mem_cons_of_mem u hx))
    simp [readCustomDomainsLoop, hu, hgu, ih2]

theorem heldAfter_append_noLock (held : List String) (body rest : List Event)
    (h : ∀ e ∈ body, e.isLockCall = false) :
    heldAfter held (body ++ rest) = heldAfter held rest := by
  induction body with
  | nil => rfl
  | cons e t ih =>
    have he := h e (List.mem_cons_self e t)
    have ht := ih (fun x hx => h x (List.mem_cons_of_mem e hx))
    cases e <;> simp_all [heldAfter, Event.isLockCall]

theorem routeCallsUnderLocks_append_noLock (names held : List String) (body rest : List Event)
    (h : ∀ e ∈ body, e.isLockCall = false)
    (hheld : names.all (fun n => held.contains n) = true) :
    routeCallsUnderLocks names held (body ++ rest) = routeCallsUnderLocks names held rest := by
  induction body with
  | nil => rfl
  | cons e t ih =>
    have he := h e (List.mem_cons_self e t)
    have ht := ih (fun x hx => h x (List.mem_cons_of_mem e hx))
    cases e <;> simp_all [routeCallsUnderLocks, Event.isLockCall]

theorem lockedNames_append_noLock (body rest : List Event)
    (h : ∀ e ∈ body, e.isLockCall = false) :
    lockedNames (body ++ rest) = lockedNames rest := by
  induction body with
  | nil => rfl
  | cons e t ih =>
    have he := h e (List.mem_cons_self e t)
    have ht := ih (fun x hx => h x (List.mem_cons_of_mem e hx))
    cases e <;> simp_all [lockedNames, Event.isLockCall]

theorem noLockCalls_of_gets (tail : List Event)
    (h : ∀ e ∈ tail, e.isRouteGet = true ∨ e.isCustomDomainGet = true) :
    ∀ e ∈ tail, e.isLockCall = false := by
  intro e he
  rcases h e he with h | h <;> cases e <;>
    simp_all [Event.isRouteGet, Event.isCustomDomainGet, Event.isLockCall]

theorem createLocked_noLockCalls (env : Env) (d : ResourceData) (w : World) (ctx : Context)
    (cds : List String) (routeId : FrontDoorRouteId)
    (id : FrontDoorRouteDisableLinkToDefaultDomainId) :
    ∀ e ∈ (createLocked env d w ctx cds routeId id).trace, e.isLockCall = false := by
  obtain ⟨mid, tail, ht, htail, -, hmid⟩ := createLocked_shape env d w ctx cds routeId id
  rw [ht]
  intro e he
  simp only [List.mem_cons, List.mem_append] at he
  rcases he with rfl | he | he
  · rfl
  · rcases hmid with rfl | ⟨_, _, _, -, -, -, -, -, -, rfl | rfl⟩
    · simp at he
    · simp at he; subst he; rfl
    · simp at he; rcases he with rfl | rfl <;> rfl
  · exact noLockCalls_of_gets tail htail e he

theorem updateLocked_noLockCalls (env : Env) (d : ResourceData) (w : World) (ctx : Context)
    (cds : List String) (routeId : FrontDoorRouteId)
    (id : FrontDoorRouteDisableLinkToDefaultDomainId) :
    ∀ e ∈ (updateLocked env d w ctx cds routeId id).trace, e.isLockCall = false := by
  obtain ⟨mid, tail, ht, htail, -, hmid⟩ := updateLocked_shape env d w ctx cds routeId id
  rw [ht]
  intro e he
  simp only [List.mem_cons, List.mem_append] at he
  rcases he with rfl | he | he
  · rfl
  · rcases hmid with rfl | ⟨_, _, _, -, -, -, -, -, -, rfl | rfl⟩
    · simp at he
    · simp at he; subst he; rfl
    · simp at he; rcases he with rfl | rfl <;> rfl
  · exact noLockCalls_of_gets tail htail e he

theorem deleteLocked_noLockCalls (env : Env) (d : ResourceData) (w : World) (ctx : Context)
    (id : FrontDoorRouteDisableLinkToDefaultDomainId) (route : FrontDoorRouteId) :
    ∀ e ∈ (deleteLocked env d w ctx id route).trace, e.isLockCall = false := by
  obtain ⟨mid, ht, -, hmid⟩ := deleteLocked_shape env d w ctx id route
  rw [ht]
  intro e he
  simp only [List.mem_cons] at he
  rcases he with rfl | he
  · rfl
  · rcases hmid with ⟨rfl, -⟩ | ⟨_, _, _, -, -, -, -, -, rfl | rfl⟩
    · simp at he
    · simp at he; subst he; rfl
    · simp at he; rcases he with rfl | rfl <;> rfl

theorem setLinkToDefaultDomain_frame (props : RouteProperties) (v : String) :
    (props.setLinkToDefaultDomain v).LinkToDefaultDomain = v ∧
    sameExceptLinkToDefaultDomain (props.setLinkToDefaultDomain v) props :=
  ⟨rfl, rfl, rfl, rfl, rfl, rfl, rfl, rfl, rfl, rfl⟩

/-- Where the mutating call of Create sits in the trace: right after the route
`Get` that fetched the properties it sends, and nothing else mutates. -/
theorem create_call_in_trace (env : Env) (d : ResourceData) (w : World) :
    mutatingCalls (resourceCdnFrontDoorRouteDisableLinkToDefaultDomainCreate env d w).trace = [] ∨
    ∃ routeId existing props post,
      env.FrontDoorRouteID d.cdn_frontdoor_route_id = Except.ok routeId ∧
      w.routes routeId.ResourceGroup routeId.ProfileName routeId.AfdEndpointName
        routeId.RouteName = RouteGetResult.ok existing ∧
      existing.RouteProperties = some props ∧
      (resourceCdnFrontDoorRouteDisableLinkToDefaultDomainCreate env d w).trace =
        [Event.lockByID env.cdnFrontDoorRouteResourceType,
          Event.lockByID env.cdnFrontDoorCustomDomainResourceType] ++
        [Event.routeGet (ForCreate d) routeId.ResourceGroup routeId.ProfileName
            routeId.AfdEndpointName routeId.RouteName,
          Event.routeCreate (ForCreate d) routeId.ResourceGroup routeId.ProfileName
            routeId.AfdEndpointName routeId.RouteName
            ⟨some (props.setLinkToDefaultDomain LinkToDefaultDomainDisabled)⟩] ++ post ∧
      mutatingCalls post = [] := by
  rcases hr : env.FrontDoorRouteID d.cdn_frontdoor_route_id with e | routeId
  · left; simp [resourceCdnFrontDoorRouteDisableLinkToDefaultDomainCreate, hr, mutatingCalls]
  · rcases hu : w.uuid with e | uuid
    · left; simp [resourceCdnFrontDoorRouteDisableLinkToDefaultDomainCreate, hr, hu, mutatingCalls]
    · obtain ⟨mid, tail, ht, htail, -, hmid⟩ := createLocked_shape env d
        ((w.ByID env.cdnFrontDoorRouteResourceType).ByID env.cdnFrontDoorCustomDomainResourceType)
        (ForCreate d) d.cdn_frontdoor_custom_domain_ids routeId
        (NewFrontDoorRouteDisableLinkToDefaultDomainID routeId.SubscriptionId
          routeId.ResourceGroup routeId.ProfileName routeId.AfdEndpointName routeId.RouteName uuid)
      have ht0 : tail.filter Event.isRouteCreate = [] := mutatingCalls_of_gets tail htail
      rcases hmid with rfl | ⟨existing, props, l, h1, h2, -, -, -, -, hmid⟩
      · left
        simp only [resourceCdnFrontDoorRouteDisableLinkToDefaultDomainCreate, hr, hu, ht]
        simp [mutatingCalls, Event.isRouteCreate, List.filter_cons, ht0]
      · right
        rcases hmid with rfl | rfl
        · refine ⟨routeId, existing, props,
            tail ++ [Event.unlockByID env.cdnFrontDoorCustomDomainResourceType,
              Event.unlockByID env.cdnFrontDoorRouteResourceType], rfl, h1, h2, ?_, ?_⟩
          · simp only [resourceCdnFrontDoorRouteDisableLinkToDefaultDomainCreate, hr, hu, ht]
            simp
          · simp [mutatingCalls, Event.isRouteCreate, List.filter_cons, ht0]
        · refine ⟨routeId, existing, props,
            Event.waitForCompletion (ForCreate d) :: (tail ++
              [Event.unlockByID env.cdnFrontDoorCustomDomainResourceType,
                Event.unlockByID env.cdnFrontDoorRouteResourceType]), rfl, h1, h2, ?_, ?_⟩
          · simp only [resourceCdnFrontDoorRouteDisableLinkToDefaultDomainCreate, hr, hu, ht]
            simp
          · simp [mutatingCalls, Event.isRouteCreate, List.filter_cons, ht0]

/-- Where the mutating call of Update sits in the trace: right after the route
`Get` that fetched the properties it sends, and nothing else mutates. -/
theorem update_call_in_trace (env : Env) (d : ResourceData) (w : World) :
    mutatingCalls (resourceCdnFrontDoorRouteDisableLinkToDefaultDomainUpdate env d w).trace = [] ∨
    ∃ routeId existing props post,
      env.FrontDoorRouteID d.cdn_frontdoor_route_id = Except.ok routeId ∧
      w.routes routeId.ResourceGroup routeId.ProfileName routeId.AfdEndpointName
        routeId.RouteName = RouteGetResult.ok existing ∧
      existing.RouteProperties = some props ∧
      (resourceCdnFrontDoorRouteDisableLinkToDefaultDomainUpdate env d w).trace =
        [Event.lockByID env.cdnFrontDoorRouteResourceType,
          Event.lockByID env.cdnFrontDoorCustomDomainResourceType] ++
        [Event.routeGet (ForCreate d) routeId.ResourceGroup routeId.ProfileName
            routeId.AfdEndpointName routeId.RouteName,
          Event.routeCreate (ForCreate d) routeId.ResourceGroup routeId.ProfileName
            routeId.AfdEndpointName routeId.RouteName
            ⟨some (props.setLinkToDefaultDomain LinkToDefaultDomainDisabled)⟩] ++ post ∧
      mutatingCalls post = [] := by
  by_cases hc : d.HasChange_cdn_frontdoor_custom_domain_ids = true
  · rcases hr : env.FrontDoorRouteID d.cdn_frontdoor_route_id with e | routeId
    · left
      simp [resourceCdnFrontDoorRouteDisableLinkToDefaultDomainUpdate, hc, hr, mutatingCalls]
    · rcases hi : env.FrontDoorRouteDisableLinkToDefaultDomainID d.Id with e | id
      · left
        simp [resourceCdnFrontDoorRouteDisableLinkToDefaultDomainUpdate, hc, hr, hi,
          mutatingCalls]
      · obtain ⟨mid, tail, ht, htail, -, hmid⟩ := updateLocked_shape env d
          ((w.ByID env.cdnFrontDoorRouteResourceType).ByID
            env.cdnFrontDoorCustomDomainResourceType)
          (ForCreate d) d.cdn_frontdoor_custom_domain_ids routeId id
        have ht0 : tail.filter Event.isRouteCreate = [] := mutatingCalls_of_gets tail htail
        rcases hmid with rfl | ⟨existing, props, l, h1, h2, -, -, -, -, hmid⟩
        · left
          simp only [resourceCdnFrontDoorRouteDisableLinkToDefaultDomainUpdate, hc, hr, hi, ht,
            if_true]
          simp [mutatingCalls, Event.isRouteCreate, List.filter_cons, ht0]
        · right
          rcases hmid with rfl | rfl
          · refine ⟨routeId, existing, props,
              tail ++ [Event.unlockByID env.cdnFrontDoorCustomDomainResourceType,
                Event.unlockByID env.cdnFrontDoorRouteResourceType], rfl, h1, h2, ?_, ?_⟩
            · simp only [resourceCdnFrontDoorRouteDisableLinkToDefaultDomainUpdate, hc, hr, hi,
                ht, if_true]
              simp
            · simp [mutatingCalls, Event.isRouteCreate, List.filter_cons, ht0]
          · refine ⟨routeId, existing, props,
              Event.waitForCompletion (ForCreate d) :: (tail ++
                [Event.unlockByID env.cdnFrontDoorCustomDomainResourceType,
                  Event.unlockByID env.cdnFrontDoorRouteResourceType]), rfl, h1, h2, ?_, ?_⟩
            · simp only [resourceCdnFrontDoorRouteDisableLinkToDefaultDomainUpdate, hc, hr, hi,
                ht, if_true]
              simp
            · simp [mutatingCalls, Event.isRouteCreate, List.filter_cons, ht0]
  · left
    simp only [resourceCdnFrontDoorRouteDisableLinkToDefaultDomainUpdate, hc]
    exact read_mutatingCalls env d w

/-- Where the mutating call of Delete sits in the trace: right after the route
`Get` that fetched the properties it sends, and nothing else mutates. -/
theorem delete_call_in_trace (env : Env) (d : ResourceData) (w : World) :
    mutatingCalls (resourceCdnFrontDoorRouteDisableLinkToDefaultDomainDelete env d w).trace = [] ∨
    ∃ route resp props post,
      env.FrontDoorRouteID d.prior_cdn_frontdoor_route_id = Except.ok route ∧
      w.routes route.ResourceGroup route.ProfileName route.AfdEndpointName
        route.RouteName = RouteGetResult.ok resp ∧
      resp.RouteProperties = some props ∧
      (resourceCdnFrontDoorRouteDisableLinkToDefaultDomainDelete env d w).trace =
        [Event.lockByID env.cdnFrontDoorRouteResourceType] ++
        [Event.routeGet (ForDelete d) route.ResourceGroup route.ProfileName
            route.AfdEndpointName route.RouteName,
          Event.routeCreate (ForDelete d) route.ResourceGroup route.ProfileName
            route.AfdEndpointName route.RouteName
            ⟨some (props.setLinkToDefaultDomain LinkToDefaultDomainEnabled)⟩] ++ post ∧
      mutatingCalls post = [] := by
  rcases hi : env.FrontDoorRouteDisableLinkToDefaultDomainID d.Id with e | id
  · left; simp [resourceCdnFrontDoorRouteDisableLinkToDefaultDomainDelete, hi, mutatingCalls]
  · rcases hr : env.FrontDoorRouteID d.prior_cdn_frontdoor_route_id with e | route
    · left
      simp [resourceCdnFrontDoorRouteDisableLinkToDefaultDomainDelete, hi, hr, mutatingCalls]
    · obtain ⟨mid, ht, -, hmid⟩ := deleteLocked_shape env d
        (w.ByID env.cdnFrontDoorRouteResourceType) (ForDelete d) id route
      rcases hmid with ⟨rfl, -⟩ | ⟨resp, props, l, h1, h2, -, -, -, hmid⟩
      · left
        simp only [resourceCdnFrontDoorRouteDisableLinkToDefaultDomainDelete, hi, hr, ht]
        simp [mutatingCalls, Event.isRouteCreate, List.filter_cons]
      · right
        rcases hmid with rfl | rfl
        · refine ⟨route, resp, props, [Event.unlockByID env.cdnFrontDoorRouteResourceType],
            rfl, h1, h2, ?_, ?_⟩
          · simp [resourceCdnFrontDoorRouteDisableLinkToDefaultDomainDelete, hi, hr, ht]
          · simp [mutatingCalls, Event.isRouteCreate, List.filter_cons]
        · refine ⟨route, resp, props,
            [Event.waitForCompletion (ForDelete d),
              Event.unlockByID env.cdnFrontDoorRouteResourceType], rfl, h1, h2, ?_, ?_⟩
          · simp [resourceCdnFrontDoorRouteDisableLinkToDefaultDomainDelete, hi, hr, ht]
          · simp [mutatingCalls, Event.isRouteCreate, List.filter_cons]

/-! ## The claims -/

/-- C1: when the fetched route (Get succeeds, properties non-nil) has an empty
custom-domain list, Create and Update (with a changed list) return an error,
the precondition error once the identifier is available, issue no mutating
route Create call and leave the identifier as it was, for every configured
list and every fetched flag value. -/
theorem create_update_reject_route_without_custom_domains
    (env : Env) (d : ResourceData) (w : World) (routeId : FrontDoorRouteId)
    (existing : Route) (props : RouteProperties)
    (hroute : env.FrontDoorRouteID d.cdn_frontdoor_route_id = Except.ok routeId)
    (hget : w.routes routeId.ResourceGroup routeId.ProfileName routeId.AfdEndpointName
      routeId.RouteName = RouteGetResult.ok existing)
    (hprops : existing.RouteProperties = some props)
    (hflat : env.flattenCustomDomainActivatedResourceArray props.CustomDomains = Except.ok []) :
    ((resourceCdnFrontDoorRouteDisableLinkToDefaultDomainCreate env d w).err ≠ none ∧
      (∀ uuid, w.uuid = Except.ok uuid →
        (resourceCdnFrontDoorRouteDisableLinkToDefaultDomainCreate env d w).err =
          some (Err.creatingNoCustomDomains
            (NewFrontDoorRouteDisableLinkToDefaultDomainID routeId.SubscriptionId
              routeId.ResourceGroup routeId.ProfileName routeId.AfdEndpointName
              routeId.RouteName uuid) routeId.RouteName)) ∧
      mutatingCalls (resourceCdnFrontDoorRouteDisableLinkToDefaultDomainCreate env d w).trace = [] ∧
      (resourceCdnFrontDoorRouteDisableLinkToDefaultDomainCreate env d w).d.Id = d.Id) ∧
    (d.HasChange_cdn_frontdoor_custom_domain_ids = true →
      (resourceCdnFrontDoorRouteDisableLinkToDefaultDomainUpdate env d w).err ≠ none ∧
      (∀ id, env.FrontDoorRouteDisableLinkToDefaultDomainID d.Id = Except.ok id →
        (resourceCdnFrontDoorRouteDisableLinkToDefaultDomainUpdate env d w).err =
          some (Err.updatingNoCustomDomains id routeId.RouteName)) ∧
      mutatingCalls (resourceCdnFrontDoorRouteDisableLinkToDefaultDomainUpdate env d w).trace = [] ∧
      (resourceCdnFrontDoorRouteDisableLinkToDefaultDomainUpdate env d w).d.Id = d.Id) := by
  constructor
  · rcases hu : w.uuid with e | uuid
    · simp [resourceCdnFrontDoorRouteDisableLinkToDefaultDomainCreate, hroute, hu, mutatingCalls]
    · simp [resourceCdnFrontDoorRouteDisableLinkToDefaultDomainCreate, createLocked, hroute, hu,
        World.ByID, hget, hprops, hflat, mutatingCalls, Event.isRouteCreate]
  · intro hc
    rcases hi : env.FrontDoorRouteDisableLinkToDefaultDomainID d.Id with e | id
    · simp [resourceCdnFrontDoorRouteDisableLinkToDefaultDomainUpdate, hc, hroute, hi,
        mutatingCalls]
    · simp [resourceCdnFrontDoorRouteDisableLinkToDefaultDomainUpdate, updateLocked, hc, hroute,
        hi, World.ByID, hget, hprops, hflat, mutatingCalls, Event.isRouteCreate]

/-- C1 at a concrete input: route1 exists with no custom domain and the flag
`Enabled`, one domain is configured. -/
theorem create_update_reject_route_without_custom_domains_witness :
    ((resourceCdnFrontDoorRouteDisableLinkToDefaultDomainCreate exampleEnv
        (exampleData ["cd1"] [])
        (exampleWorld (RouteGetResult.ok ⟨some (exampleProps [] "Enabled")⟩))).err ≠ none ∧
      mutatingCalls (resourceCdnFrontDoorRouteDisableLinkToDefaultDomainCreate exampleEnv
        (exampleData ["cd1"] [])
        (exampleWorld (RouteGetResult.ok ⟨some (exampleProps [] "Enabled")⟩))).trace = []) ∧
    (resourceCdnFrontDoorRouteDisableLinkToDefaultDomainUpdate exampleEnv
        (exampleData ["cd1"] [])
        (exampleWorld (RouteGetResult.ok ⟨some (exampleProps [] "Enabled")⟩))).err ≠ none := by
  have h := create_update_reject_route_without_custom_domains exampleEnv (exampleData ["cd1"] [])
    (exampleWorld (RouteGetResult.ok ⟨some (exampleProps [] "Enabled")⟩))
    ⟨"sub", "rg", "profile", "endpoint", "route1"⟩ ⟨some (exampleProps [] "Enabled")⟩
    (exampleProps [] "Enabled") rfl (by decide) rfl rfl
  exact ⟨⟨h.1.1, h.1.2.2.1⟩, (h.2 (by decide)).1⟩

/-- C2 (validation modelled from the spec): for a fetched route with at least
one custom domain, a configured list that is not equal as a set to the route's
list makes Create and Update (with a changed list) return an error, the
validation error once the identifier is available, without any mutating route
Create call; and a mutating call of Create or Update implies that
`validateCustomDomainLinkToDefaultDomainState` accepted the pair. -/
theorem create_update_reject_mismatched_custom_domains
    (env : Env) (d : ResourceData) (w : World) (routeId : FrontDoorRouteId)
    (existing : Route) (props : RouteProperties) (l : List String)
    (hval : env.validateCustomDomainLinkToDefaultDomainState =
      validateCustomDomainLinkToDefaultDomainState)
    (hroute : env.FrontDoorRouteID d.cdn_frontdoor_route_id = Except.ok routeId)
    (hget : w.routes routeId.ResourceGroup routeId.ProfileName routeId.AfdEndpointName
      routeId.RouteName = RouteGetResult.ok existing)
    (hprops : existing.RouteProperties = some props)
    (hflat : env.flattenCustomDomainActivatedResourceArray props.CustomDomains = Except.ok l)
    (hne : l ≠ []) :
    ((¬ ∀ v, v ∈ d.cdn_frontdoor_custom_domain_ids ↔ v ∈ l) →
      ((resourceCdnFrontDoorRouteDisableLinkToDefaultDomainCreate env d w).err ≠ none ∧
        (∀ uuid, w.uuid = Except.ok uuid → ∃ msg,
          (resourceCdnFrontDoorRouteDisableLinkToDefaultDomainCreate env d w).err =
            some (Err.creatingValidate
              (NewFrontDoorRouteDisableLinkToDefaultDomainID routeId.SubscriptionId
                routeId.ResourceGroup routeId.ProfileName routeId.AfdEndpointName
                routeId.RouteName uuid) msg)) ∧
        mutatingCalls
          (resourceCdnFrontDoorRouteDisableLinkToDefaultDomainCreate env d w).trace = []) ∧
      (d.HasChange_cdn_frontdoor_custom_domain_ids = true →
        (resourceCdnFrontDoorRouteDisableLinkToDefaultDomainUpdate env d w).err ≠ none ∧
        (∀ id, env.FrontDoorRouteDisableLinkToDefaultDomainID d.Id = Except.ok id → ∃ msg,
          (resourceCdnFrontDoorRouteDisableLinkToDefaultDomainUpdate env d w).err =
            some (Err.updatingValidate id msg)) ∧
        mutatingCalls
          (resourceCdnFrontDoorRouteDisableLinkToDefaultDomainUpdate env d w).trace = [])) ∧
    (mutatingCalls (resourceCdnFrontDoorRouteDisableLinkToDefaultDomainCreate env d w).trace ≠ [] →
      env.validateCustomDomainLinkToDefaultDomainState d.cdn_frontdoor_custom_domain_ids l
        routeId.RouteName routeId.ProfileName = none) ∧
    (mutatingCalls (resourceCdnFrontDoorRouteDisableLinkToDefaultDomainUpdate env d w).trace ≠ [] →
      env.validateCustomDomainLinkToDefaultDomainState d.cdn_frontdoor_custom_domain_ids l
        routeId.RouteName routeId.ProfileName = none) := by
  have hlen : ¬ l.length = 0 := by
    intro h; exact hne (List.length_eq_zero.mp h)
  refine ⟨?_, ?_, ?_⟩
  · intro hmis
    have hrej : ∃ msg, env.validateCustomDomainLinkToDefaultDomainState
        d.cdn_frontdoor_custom_domain_ids l routeId.RouteName routeId.ProfileName = some msg := by
      rw [hval]
      rcases hv : validateCustomDomainLinkToDefaultDomainState
        d.cdn_frontdoor_custom_domain_ids l routeId.RouteName routeId.ProfileName with _ | msg
      · exact absurd ((validate_eq_none_iff _ _ _ _).1 hv) hmis
      · exact ⟨msg, rfl⟩
    obtain ⟨msg, hrej⟩ := hrej
    constructor
    · rcases hu : w.uuid with e | uuid
      · simp [resourceCdnFrontDoorRouteDisableLinkToDefaultDomainCreate, hroute, hu, mutatingCalls]
      · simp [resourceCdnFrontDoorRouteDisableLinkToDefaultDomainCreate, createLocked, hroute, hu,
          World.ByID, hget, hprops, hflat, hlen, hrej, mutatingCalls, Event.isRouteCreate]
    · intro hc
      rcases hi : env.FrontDoorRouteDisableLinkToDefaultDomainID d.Id with e | id
      · simp [resourceCdnFrontDoorRouteDisableLinkToDefaultDomainUpdate, hc, hroute, hi,
          mutatingCalls]
      · simp [resourceCdnFrontDoorRouteDisableLinkToDefaultDomainUpdate, updateLocked, hc, hroute,
          hi, World.ByID, hget, hprops, hflat, hlen, hrej, mutatingCalls, Event.isRouteCreate]
  · intro hm
    rcases create_mutatingCalls env d w with h | ⟨r2, e2, p2, l2, h1, h2, h3, h4, -, h5, -, -⟩
    · exact absurd h hm
    · rw [hroute] at h1
      cases h1
      rw [hget] at h2
      cases h2
      rw [hprops] at h3
      cases h3
      rw [hflat] at h4
      cases h4
      exact h5
  · intro hm
    rcases update_mutatingCalls env d w with h | ⟨r2, e2, p2, l2, -, h1, h2, h3, h4, -, h5, -, -⟩
    · exact absurd h hm
    · rw [hroute] at h1
      cases h1
      rw [hget] at h2
      cases h2
      rw [hprops] at h3
      cases h3
      rw [hflat] at h4
      cases h4
      exact h5

/-- C2 at a concrete input: route1 has the custom domain cd1 and the flag
`Enabled`, the configuration lists cd2. -/
theorem create_update_reject_mismatched_custom_domains_witness :
    ((resourceCdnFrontDoorRouteDisableLinkToDefaultDomainCreate exampleEnv
        (exampleData ["cd2"] [])
        (exampleWorld (RouteGetResult.ok ⟨some (exampleProps ["cd1"] "Enabled")⟩))).err ≠ none ∧
      mutatingCalls (resourceCdnFrontDoorRouteDisableLinkToDefaultDomainCreate exampleEnv
        (exampleData ["cd2"] [])
        (exampleWorld (RouteGetResult.ok ⟨some (exampleProps ["cd1"] "Enabled")⟩))).trace = []) ∧
    ((resourceCdnFrontDoorRouteDisableLinkToDefaultDomainUpdate exampleEnv
        (exampleData ["cd2"] [])
        (exampleWorld (RouteGetResult.ok ⟨some (exampleProps ["cd1"] "Enabled")⟩))).err ≠ none ∧
      mutatingCalls (resourceCdnFrontDoorRouteDisableLinkToDefaultDomainUpdate exampleEnv
        (exampleData ["cd2"] [])
        (exampleWorld (RouteGetResult.ok ⟨some (exampleProps ["cd1"] "Enabled")⟩))).trace = []) := by
  have h := (create_update_reject_mismatched_custom_domains exampleEnv (exampleData ["cd2"] [])
    (exampleWorld (RouteGetResult.ok ⟨some (exampleProps ["cd1"] "Enabled")⟩))
    ⟨"sub", "rg", "profile", "endpoint", "route1"⟩ ⟨some (exampleProps ["cd1"] "Enabled")⟩
    (exampleProps ["cd1"] "Enabled") ["cd1"] rfl rfl (by decide) rfl rfl (by decide)).1
    (by
      intro hall
      have h2 := (hall "cd2").1 (by decide)
      revert h2
      decide)
  exact ⟨⟨h.1.1, h.1.2.2⟩, ⟨(h.2 (by decide)).1, (h.2 (by decide)).2.2⟩⟩

/-- C3: when the fetched flag is already `Disabled` and the preconditions pass
(properties non-nil, at least one custom domain, validation accepted), Create
and Update (with a changed list) issue no mutating route Create call, and,
once the identifier is available, go on to record the identifier / state and
run Read on the recorded data: their error, data and trace are those of that
Read, between the route Get and the deferred unlocks. What is recorded is
explicit in the outcome: the route id is `routeId.ID()`, the custom-domain
list is the configured one, and the identifier is `id.ID()` for Create (the
identifier it had for Update), unless the trailing Read finds the recorded
route gone and clears it, which cannot happen when `routeId.ID()` parses back
to `routeId`. -/
theorem create_update_idempotent_when_already_disabled
    (env : Env) (d : ResourceData) (w : World) (routeId : FrontDoorRouteId)
    (existing : Route) (props : RouteProperties) (l : List String)
    (hroute : env.FrontDoorRouteID d.cdn_frontdoor_route_id = Except.ok routeId)
    (hget : w.routes routeId.ResourceGroup routeId.ProfileName routeId.AfdEndpointName
      routeId.RouteName = RouteGetResult.ok existing)
    (hprops : existing.RouteProperties = some props)
    (hflat : env.flattenCustomDomainActivatedResourceArray props.CustomDomains = Except.ok l)
    (hne : l ≠ [])
    (hvalid : env.validateCustomDomainLinkToDefaultDomainState d.cdn_frontdoor_custom_domain_ids l
      routeId.RouteName routeId.ProfileName = none)
    (hflag : props.LinkToDefaultDomain = LinkToDefaultDomainDisabled) :
    (mutatingCalls (resourceCdnFrontDoorRouteDisableLinkToDefaultDomainCreate env d w).trace = [] ∧
      ∀ uuid, w.uuid = Except.ok uuid →
        (resourceCdnFrontDoorRouteDisableLinkToDefaultDomainCreate env d w).err =
          (resourceCdnFrontDoorRouteDisableLinkToDefaultDomainRead env
            (createRecorded env d
              (NewFrontDoorRouteDisableLinkToDefaultDomainID routeId.SubscriptionId
                routeId.ResourceGroup routeId.ProfileName routeId.AfdEndpointName
                routeId.RouteName uuid) routeId d.cdn_frontdoor_custom_domain_ids)
            ((w.ByID env.cdnFrontDoorRouteResourceType).ByID
              env.cdnFrontDoorCustomDomainResourceType)).err ∧
        (resourceCdnFrontDoorRouteDisableLinkToDefaultDomainCreate env d w).d =
          (resourceCdnFrontDoorRouteDisableLinkToDefaultDomainRead env
            (createRecorded env d
              (NewFrontDoorRouteDisableLinkToDefaultDomainID routeId.SubscriptionId
                routeId.ResourceGroup routeId.ProfileName routeId.AfdEndpointName
                routeId.RouteName uuid) routeId d.cdn_frontdoor_custom_domain_ids)
            ((w.ByID env.cdnFrontDoorRouteResourceType).ByID
              env.cdnFrontDoorCustomDomainResourceType)).d ∧
        (resourceCdnFrontDoorRouteDisableLinkToDefaultDomainCreate env d w).trace =
          [Event.lockByID env.cdnFrontDoorRouteResourceType,
            Event.lockByID env.cdnFrontDoorCustomDomainResourceType,
            Event.routeGet (ForCreate d) routeId.ResourceGroup routeId.ProfileName
              routeId.AfdEndpointName routeId.RouteName] ++
          (resourceCdnFrontDoorRouteDisableLinkToDefaultDomainRead env
            (createRecorded env d
              (NewFrontDoorRouteDisableLinkToDefaultDomainID routeId.SubscriptionId
                routeId.ResourceGroup routeId.ProfileName routeId.AfdEndpointName
                routeId.RouteName uuid) routeId d.cdn_frontdoor_custom_domain_ids)
            ((w.ByID env.cdnFrontDoorRouteResourceType).ByID
              env.cdnFrontDoorCustomDomainResourceType)).trace ++
          [Event.unlockByID env.cdnFrontDoorCustomDomainResourceType,
            Event.unlockByID env.cdnFrontDoorRouteResourceType] ∧
        (resourceCdnFrontDoorRouteDisableLinkToDefaultDomainCreate env d w).d.cdn_frontdoor_route_id =
          env.routeIdID routeId ∧
        (resourceCdnFrontDoorRouteDisableLinkToDefaultDomainCreate env d w).d.cdn_frontdoor_custom_domain_ids =
          d.cdn_frontdoor_custom_domain_ids ∧
        ((resourceCdnFrontDoorRouteDisableLinkToDefaultDomainCreate env d w).d.Id =
            env.disableLinkIdID
              (NewFrontDoorRouteDisableLinkToDefaultDomainID routeId.SubscriptionId
                routeId.ResourceGroup routeId.ProfileName routeId.AfdEndpointName
                routeId.RouteName uuid) ∨
          ((resourceCdnFrontDoorRouteDisableLinkToDefaultDomainCreate env d w).d.Id = "" ∧
            ∃ r2 err,
            env.FrontDoorRouteID (env.routeIdID routeId) = Except.ok r2 ∧
            w.routes r2.ResourceGroup r2.ProfileName r2.AfdEndpointName r2.RouteName =
              RouteGetResult.notFound err)) ∧
        (env.FrontDoorRouteID (env.routeIdID routeId) = Except.ok routeId →
          (resourceCdnFrontDoorRouteDisableLinkToDefaultDomainCreate env d w).d.Id =
            env.disableLinkIdID
              (NewFrontDoorRouteDisableLinkToDefaultDomainID routeId.SubscriptionId
                routeId.ResourceGroup routeId.ProfileName routeId.AfdEndpointName
                routeId.RouteName uuid))) ∧
    (d.HasChange_cdn_frontdoor_custom_domain_ids = true →
      mutatingCalls (resourceCdnFrontDoorRouteDisableLinkToDefaultDomainUpdate env d w).trace = [] ∧
      ∀ id, env.FrontDoorRouteDisableLinkToDefaultDomainID d.Id = Except.ok id →
        (resourceCdnFrontDoorRouteDisableLinkToDefaultDomainUpdate env d w).err =
          (resourceCdnFrontDoorRouteDisableLinkToDefaultDomainRead env
            (updateRecorded env d routeId d.cdn_frontdoor_custom_domain_ids)
            ((w.ByID env.cdnFrontDoorRouteResourceType).ByID
              env.cdnFrontDoorCustomDomainResourceType)).err ∧
        (resourceCdnFrontDoorRouteDisableLinkToDefaultDomainUpdate env d w).d =
          (resourceCdnFrontDoorRouteDisableLinkToDefaultDomainRead env
            (updateRecorded env d routeId d.cdn_frontdoor_custom_domain_ids)
            ((w.ByID env.cdnFrontDoorRouteResourceType).ByID
              env.cdnFrontDoorCustomDomainResourceType)).d ∧
        (resourceCdnFrontDoorRouteDisableLinkToDefaultDomainUpdate env d w).trace =
          [Event.lockByID env.cdnFrontDoorRouteResourceType,
            Event.lockByID env.cdnFrontDoorCustomDomainResourceType,
            Event.routeGet (ForCreate d) routeId.ResourceGroup routeId.ProfileName
              routeId.AfdEndpointName routeId.RouteName] ++
          (resourceCdnFrontDoorRouteDisableLinkToDefaultDomainRead env
            (updateRecorded env d routeId d.cdn_frontdoor_custom_domain_ids)
            ((w.ByID env.cdnFrontDoorRouteResourceType).ByID
              env.cdnFrontDoorCustomDomainResourceType)).trace ++
          [Event.unlockByID env.cdnFrontDoorCustomDomainResourceType,
            Event.unlockByID env.cdnFrontDoorRouteResourceType] ∧
        (resourceCdnFrontDoorRouteDisableLinkToDefaultDomainUpdate env d w).d.cdn_frontdoor_route_id =
          env.routeIdID routeId ∧
        (resourceCdnFrontDoorRouteDisableLinkToDefaultDomainUpdate env d w).d.cdn_frontdoor_custom_domain_ids =
          d.cdn_frontdoor_custom_domain_ids ∧
        ((resourceCdnFrontDoorRouteDisableLinkToDefaultDomainUpdate env d w).d.Id = d.Id ∨
          ((resourceCdnFrontDoorRouteDisableLinkToDefaultDomainUpdate env d w).d.Id = "" ∧
            ∃ r2 err,
            env.FrontDoorRouteID (env.routeIdID routeId) = Except.ok r2 ∧
            w.routes r2.ResourceGroup r2.ProfileName r2.AfdEndpointName r2.RouteName =
              RouteGetResult.notFound err)) ∧
        (env.FrontDoorRouteID (env.routeIdID routeId) = Except.ok routeId →
          (resourceCdnFrontDoorRouteDisableLinkToDefaultDomainUpdate env d w).d.Id = d.Id)) := by
  have hlen : ¬ l.length = 0 := by
    intro h; exact hne (List.length_eq_zero.mp h)
  have hnot : ∀ r2 err, env.FrontDoorRouteID (env.routeIdID routeId) = Except.ok routeId →
      env.FrontDoorRouteID (env.routeIdID routeId) = Except.ok r2 →
      w.routes r2.ResourceGroup r2.ProfileName r2.AfdEndpointName r2.RouteName =
        RouteGetResult.notFound err → False := by
    intro r2 err hrt h2 hnf
    rw [hrt] at h2
    cases h2
    rw [hget] at hnf
    cases hnf
  constructor
  · constructor
    · rcases create_mutatingCalls env d w with h | ⟨r2, e2, p2, l2, h1, h2, h3, -, -, -, h6, -⟩
      · exact h
      · rw [hroute] at h1
        cases h1
        rw [hget] at h2
        cases h2
        rw [hprops] at h3
        cases h3
        exact absurd hflag h6
    · intro uuid hu
      have hcore :
          (resourceCdnFrontDoorRouteDisableLinkToDefaultDomainCreate env d w).err =
          (resourceCdnFrontDoorRouteDisableLinkToDefaultDomainRead env
            (createRecorded env d
              (NewFrontDoorRouteDisableLinkToDefaultDomainID routeId.SubscriptionId
                routeId.ResourceGroup routeId.ProfileName routeId.AfdEndpointName
                routeId.RouteName uuid) routeId d.cdn_frontdoor_custom_domain_ids)
            ((w.ByID env.cdnFrontDoorRouteResourceType).ByID
              env.cdnFrontDoorCustomDomainResourceType)).err ∧
          (resourceCdnFrontDoorRouteDisableLinkToDefaultDomainCreate env d w).d =
          (resourceCdnFrontDoorRouteDisableLinkToDefaultDomainRead env
            (createRecorded env d
              (NewFrontDoorRouteDisableLinkToDefaultDomainID routeId.SubscriptionId
                routeId.ResourceGroup routeId.ProfileName routeId.AfdEndpointName
                routeId.RouteName uuid) routeId d.cdn_frontdoor_custom_domain_ids)
            ((w.ByID env.cdnFrontDoorRouteResourceType).ByID
              env.cdnFrontDoorCustomDomainResourceType)).d ∧
          (resourceCdnFrontDoorRouteDisableLinkToDefaultDomainCreate env d w).trace =
          [Event.lockByID env.cdnFrontDoorRouteResourceType,
            Event.lockByID env.cdnFrontDoorCustomDomainResourceType,
            Event.routeGet (ForCreate d) routeId.ResourceGroup routeId.ProfileName
              routeId.AfdEndpointName routeId.RouteName] ++
          (resourceCdnFrontDoorRouteDisableLinkToDefaultDomainRead env
            (createRecorded env d
              (NewFrontDoorRouteDisableLinkToDefaultDomainID routeId.SubscriptionId
                routeId.ResourceGroup routeId.ProfileName routeId.AfdEndpointName
                routeId.RouteName uuid) routeId d.cdn_frontdoor_custom_domain_ids)
            ((w.ByID env.cdnFrontDoorRouteResourceType).ByID
              env.cdnFrontDoorCustomDomainResourceType)).trace ++
          [Event.unlockByID env.cdnFrontDoorCustomDomainResourceType,
            Event.unlockByID env.cdnFrontDoorRouteResourceType] := by
        simp [resourceCdnFrontDoorRouteDisableLinkToDefaultDomainCreate, createLocked, hroute, hu,
          World.ByID, hget, hprops, hflat, hlen, hvalid, hflag]
      have hf := read_d_fields env
        (createRecorded env d
          (NewFrontDoorRouteDisableLinkToDefaultDomainID routeId.SubscriptionId
                routeId.ResourceGroup routeId.ProfileName routeId.AfdEndpointName
                routeId.RouteName uuid) routeId d.cdn_frontdoor_custom_domain_ids)
        ((w.ByID env.cdnFrontDoorRouteResourceType).ByID
              env.cdnFrontDoorCustomDomainResourceType)
      have hI := read_d_Id env
        (createRecorded env d
          (NewFrontDoorRouteDisableLinkToDefaultDomainID routeId.SubscriptionId
                routeId.ResourceGroup routeId.ProfileName routeId.AfdEndpointName
                routeId.RouteName uuid) routeId d.cdn_frontdoor_custom_domain_ids)
        ((w.ByID env.cdnFrontDoorRouteResourceType).ByID
              env.cdnFrontDoorCustomDomainResourceType)
      refine ⟨hcore.1, hcore.2.1, hcore.2.2, ?_, ?_, ?_, ?_⟩
      · rw [hcore.2.1]
        exact hf.1
      · rw [hcore.2.1]
        exact hf.2
      · rw [hcore.2.1]
        rcases hI with h | ⟨h, r2, err, hp, hnf⟩
        · exact Or.inl h
        · exact Or.inr ⟨h, r2, err, hp, hnf⟩
      · intro hrt
        rw [hcore.2.1]
        rcases hI with h | ⟨-, r2, err, hp, hnf⟩
        · exact h
        · exact (hnot r2 err hrt hp hnf).elim
  · intro hc
    constructor
    · rcases update_mutatingCalls env d w with
        h | ⟨r2, e2, p2, l2, -, h1, h2, h3, -, -, -, h6, -⟩
      · exact h
      · rw [hroute] at h1
        cases h1
        rw [hget] at h2
        cases h2
        rw [hprops] at h3
        cases h3
        exact absurd hflag h6
    · intro id hi
      have hcore :
          (resourceCdnFrontDoorRouteDisableLinkToDefaultDomainUpdate env d w).err =
          (resourceCdnFrontDoorRouteDisableLinkToDefaultDomainRead env
            (updateRecorded env d routeId d.cdn_frontdoor_custom_domain_ids)
            ((w.ByID env.cdnFrontDoorRouteResourceType).ByID
              env.cdnFrontDoorCustomDomainResourceType)).err ∧
          (resourceCdnFrontDoorRouteDisableLinkToDefaultDomainUpdate env d w).d =
          (resourceCdnFrontDoorRouteDisableLinkToDefaultDomainRead env
            (updateRecorded env d routeId d.cdn_frontdoor_custom_domain_ids)
            ((w.ByID env.cdnFrontDoorRouteResourceType).ByID
              env.cdnFrontDoorCustomDomainResourceType)).d ∧
          (resourceCdnFrontDoorRouteDisableLinkToDefaultDomainUpdate env d w).trace =
          [Event.lockByID env.cdnFrontDoorRouteResourceType,
            Event.lockByID env.cdnFrontDoorCustomDomainResourceType,
            Event.routeGet (ForCreate d) routeId.ResourceGroup routeId.ProfileName
              routeId.AfdEndpointName routeId.RouteName] ++
          (resourceCdnFrontDoorRouteDisableLinkToDefaultDomainRead env
            (updateRecorded env d routeId d.cdn_frontdoor_custom_domain_ids)
            ((w.ByID env.cdnFrontDoorRouteResourceType).ByID
              env.cdnFrontDoorCustomDomainResourceType)).trace ++
          [Event.unlockByID env.cdnFrontDoorCustomDomainResourceType,
            Event.unlockByID env.cdnFrontDoorRouteResourceType] := by
        simp [resourceCdnFrontDoorRouteDisableLinkToDefaultDomainUpdate, updateLocked, hc, hroute,
          hi, World.ByID, hget, hprops, hflat, hlen, hvalid, hflag]
      have hf := read_d_fields env
        (updateRecorded env d routeId d.cdn_frontdoor_custom_domain_ids)
        ((w.ByID env.cdnFrontDoorRouteResourceType).ByID
              env.cdnFrontDoorCustomDomainResourceType)
      have hI := read_d_Id env
        (updateRecorded env d routeId d.cdn_frontdoor_custom_domain_ids)
        ((w.ByID env.cdnFrontDoorRouteResourceType).ByID
              env.cdnFrontDoorCustomDomainResourceType)
      refine ⟨hcore.1, hcore.2.1, hcore.2.2, ?_, ?_, ?_, ?_⟩
      · rw [hcore.2.1]
        exact hf.1
      · rw [hcore.2.1]
        exact hf.2
      · rw [hcore.2.1]
        rcases hI with h | ⟨h, r2, err, hp, hnf⟩
        · exact Or.inl h
        · exact Or.inr ⟨h, r2, err, hp, hnf⟩
      · intro hrt
        rw [hcore.2.1]
        rcases hI with h | ⟨-, r2, err, hp, hnf⟩
        · exact h
        · exact (hnot r2 err hrt hp hnf).elim

/-- C3 at a concrete input: route1 has the custom domain cd1 and the flag
`Disabled`, cd1 is configured, the route is configured under the spelling
"ROUTE1" and the resource has no identifier yet. Create makes no mutating
call, returns no error, and records the identifier "link1" and the route id
"route1"; Update, on the resource with the identifier "link1", makes no
mutating call and records the route id "route1". -/
theorem create_update_idempotent_when_already_disabled_witness :
    ({ exampleData ["cd1"] [] with Id := "", cdn_frontdoor_route_id := "ROUTE1" } :
      ResourceData).Id = "" ∧
    mutatingCalls (resourceCdnFrontDoorRouteDisableLinkToDefaultDomainCreate exampleEnvNormalising
      { exampleData ["cd1"] [] with Id := "", cdn_frontdoor_route_id := "ROUTE1" }
      (exampleWorld (RouteGetResult.ok ⟨some (exampleProps ["cd1"] "Disabled")⟩))).trace = [] ∧
    (resourceCdnFrontDoorRouteDisableLinkToDefaultDomainCreate exampleEnvNormalising
      { exampleData ["cd1"] [] with Id := "", cdn_frontdoor_route_id := "ROUTE1" }
      (exampleWorld (RouteGetResult.ok ⟨some (exampleProps ["cd1"] "Disabled")⟩))).err = none ∧
    (resourceCdnFrontDoorRouteDisableLinkToDefaultDomainCreate exampleEnvNormalising
      { exampleData ["cd1"] [] with Id := "", cdn_frontdoor_route_id := "ROUTE1" }
      (exampleWorld (RouteGetResult.ok ⟨some (exampleProps ["cd1"] "Disabled")⟩))).d.Id =
        "link1" ∧
    (resourceCdnFrontDoorRouteDisableLinkToDefaultDomainCreate exampleEnvNormalising
      { exampleData ["cd1"] [] with Id := "", cdn_frontdoor_route_id := "ROUTE1" }
      (exampleWorld
        (RouteGetResult.ok ⟨some (exampleProps ["cd1"] "Disabled")⟩))).d.cdn_frontdoor_route_id =
        "route1" ∧
    mutatingCalls (resourceCdnFrontDoorRouteDisableLinkToDefaultDomainUpdate exampleEnvNormalising
      { exampleData ["cd1"] [] with cdn_frontdoor_route_id := "ROUTE1" }
      (exampleWorld (RouteGetResult.ok ⟨some (exampleProps ["cd1"] "Disabled")⟩))).trace = [] ∧
    (resourceCdnFrontDoorRouteDisableLinkToDefaultDomainUpdate exampleEnvNormalising
      { exampleData ["cd1"] [] with cdn_frontdoor_route_id := "ROUTE1" }
      (exampleWorld
        (RouteGetResult.ok ⟨some (exampleProps ["cd1"] "Disabled")⟩))).d.cdn_frontdoor_route_id =
        "route1" := by
  have h := create_update_idempotent_when_already_disabled exampleEnvNormalising
    { exampleData ["cd1"] [] with Id := "", cdn_frontdoor_route_id := "ROUTE1" }
    (exampleWorld (RouteGetResult.ok ⟨some (exampleProps ["cd1"] "Disabled")⟩))
    ⟨"sub", "rg", "profile", "endpoint", "route1"⟩ ⟨some (exampleProps ["cd1"] "Disabled")⟩
    (exampleProps ["cd1"] "Disabled") ["cd1"] rfl (by decide) rfl rfl (by decide) (by decide)
    (by decide)
  have hu := create_update_idempotent_when_already_disabled exampleEnvNormalising
    { exampleData ["cd1"] [] with cdn_frontdoor_route_id := "ROUTE1" }
    (exampleWorld (RouteGetResult.ok ⟨some (exampleProps ["cd1"] "Disabled")⟩))
    ⟨"sub", "rg", "profile", "endpoint", "route1"⟩ ⟨some (exampleProps ["cd1"] "Disabled")⟩
    (exampleProps ["cd1"] "Disabled") ["cd1"] rfl (by decide) rfl rfl (by decide) (by decide)
    (by decide)
  refine ⟨rfl, h.1.1, ?_, (h.1.2 "uuid1" rfl).2.2.2.2.2.2 rfl,
    (h.1.2 "uuid1" rfl).2.2.2.1, (hu.2 (by decide)).1,
    ((hu.2 (by decide)).2 ⟨"sub", "rg", "profile", "endpoint", "route1", "uuid1"⟩ rfl).2.2.2.1⟩
  rw [(h.1.2 "uuid1" rfl).1]
  decide

/-- C4: in a Delete whose route Get succeeds with non-nil properties, a route
with one or more custom domains gets no mutating call, the world (the remote
route with its flag, and the locks) is left exactly as it was, the identifier
is cleared and no error is returned; and whenever Delete issues a mutating
call, the route has exactly zero custom domains and the one call sends the
fetched properties with the flag set to `Enabled`. -/
theorem delete_restores_only_without_custom_domains
    (env : Env) (d : ResourceData) (w : World)
    (id : FrontDoorRouteDisableLinkToDefaultDomainId) (route : FrontDoorRouteId)
    (resp : Route) (props : RouteProperties) (l : List String)
    (hid : env.FrontDoorRouteDisableLinkToDefaultDomainID d.Id = Except.ok id)
    (hroute : env.FrontDoorRouteID d.prior_cdn_frontdoor_route_id = Except.ok route)
    (hget : w.routes route.ResourceGroup route.ProfileName route.AfdEndpointName
      route.RouteName = RouteGetResult.ok resp)
    (hprops : resp.RouteProperties = some props)
    (hflat : env.flattenCustomDomainActivatedResourceArray props.CustomDomains = Except.ok l) :
    (1 ≤ l.length →
      mutatingCalls (resourceCdnFrontDoorRouteDisableLinkToDefaultDomainDelete env d w).trace = [] ∧
      (resourceCdnFrontDoorRouteDisableLinkToDefaultDomainDelete env d w).w = w ∧
      (resourceCdnFrontDoorRouteDisableLinkToDefaultDomainDelete env d w).d.Id = "" ∧
      (resourceCdnFrontDoorRouteDisableLinkToDefaultDomainDelete env d w).err = none) ∧
    (mutatingCalls (resourceCdnFrontDoorRouteDisableLinkToDefaultDomainDelete env d w).trace ≠ [] →
      l.length = 0 ∧
      mutatingCalls (resourceCdnFrontDoorRouteDisableLinkToDefaultDomainDelete env d w).trace =
        [Event.routeCreate (ForDelete d) route.ResourceGroup route.ProfileName
          route.AfdEndpointName route.RouteName
          ⟨some (props.setLinkToDefaultDomain LinkToDefaultDomainEnabled)⟩]) := by
  constructor
  · intro hl
    have hlen : ¬ l.length = 0 := by omega
    have hg : (w.ByID env.cdnFrontDoorRouteResourceType).routes route.ResourceGroup
        route.ProfileName route.AfdEndpointName route.RouteName = RouteGetResult.ok resp := hget
    simp [resourceCdnFrontDoorRouteDisableLinkToDefaultDomainDelete, deleteLocked, hid, hroute,
      hg, hprops, hflat, hlen, mutatingCalls, Event.isRouteCreate, ResourceData.SetId,
      World.UnlockByID_ByID]
  · intro hm
    rcases delete_mutatingCalls env d w with h | ⟨r2, e2, p2, l2, h1, h2, h3, h4, h5, -, h7⟩
    · exact absurd h hm
    · rw [hroute] at h1
      cases h1
      rw [hget] at h2
      cases h2
      rw [hprops] at h3
      cases h3
      rw [hflat] at h4
      cases h4
      exact ⟨h5, h7⟩

/-- C4 at a concrete input: route1 has the custom domain cd1 and the flag
`Disabled`; Delete makes no mutating call, clears the identifier and succeeds. -/
theorem delete_restores_only_without_custom_domains_witness :
    mutatingCalls (resourceCdnFrontDoorRouteDisableLinkToDefaultDomainDelete exampleEnv
      (exampleData ["cd1"] ["cd1"])
      (exampleWorld (RouteGetResult.ok ⟨some (exampleProps ["cd1"] "Disabled")⟩))).trace = [] ∧
    (resourceCdnFrontDoorRouteDisableLinkToDefaultDomainDelete exampleEnv
      (exampleData ["cd1"] ["cd1"])
      (exampleWorld (RouteGetResult.ok ⟨some (exampleProps ["cd1"] "Disabled")⟩))).d.Id = "" ∧
    (resourceCdnFrontDoorRouteDisableLinkToDefaultDomainDelete exampleEnv
      (exampleData ["cd1"] ["cd1"])
      (exampleWorld (RouteGetResult.ok ⟨some (exampleProps ["cd1"] "Disabled")⟩))).err = none := by
  have h := (delete_restores_only_without_custom_domains exampleEnv (exampleData ["cd1"] ["cd1"])
    (exampleWorld (RouteGetResult.ok ⟨some (exampleProps ["cd1"] "Disabled")⟩))
    ⟨"sub", "rg", "profile", "endpoint", "route1", "uuid1"⟩
    ⟨"sub", "rg", "profile", "endpoint", "route1"⟩ ⟨some (exampleProps ["cd1"] "Disabled")⟩
    (exampleProps ["cd1"] "Disabled") ["cd1"] rfl rfl (by decide) rfl rfl).1 (by decide)
  exact ⟨h.1, h.2.2.1, h.2.2.2⟩

/-- C5: a Read whose resource identifier and route identifier parse and whose
route Get answers not-found sets the identifier to the empty string and
returns no error; its only remote call is that route Get, so it performs no
custom-domain lookup and no mutating call, and the world is untouched. -/
theorem read_clears_identifier_when_route_not_found
    (env : Env) (d : ResourceData) (w : World)
    (id : FrontDoorRouteDisableLinkToDefaultDomainId) (routeId : FrontDoorRouteId)
    (err : String)
    (hid : env.FrontDoorRouteDisableLinkToDefaultDomainID d.Id = Except.ok id)
    (hroute : env.FrontDoorRouteID d.cdn_frontdoor_route_id = Except.ok routeId)
    (hget : w.routes routeId.ResourceGroup routeId.ProfileName routeId.AfdEndpointName
      routeId.RouteName = RouteGetResult.notFound err) :
    (resourceCdnFrontDoorRouteDisableLinkToDefaultDomainRead env d w).d.Id = "" ∧
    (resourceCdnFrontDoorRouteDisableLinkToDefaultDomainRead env d w).err = none ∧
    (resourceCdnFrontDoorRouteDisableLinkToDefaultDomainRead env d w).trace =
      [Event.routeGet (ForRead d) routeId.ResourceGroup routeId.ProfileName
        routeId.AfdEndpointName routeId.RouteName] ∧
    (resourceCdnFrontDoorRouteDisableLinkToDefaultDomainRead env d w).trace.filter
      Event.isCustomDomainGet = [] ∧
    mutatingCalls (resourceCdnFrontDoorRouteDisableLinkToDefaultDomainRead env d w).trace = [] ∧
    (resourceCdnFrontDoorRouteDisableLinkToDefaultDomainRead env d w).w = w := by
  simp [resourceCdnFrontDoorRouteDisableLinkToDefaultDomainRead, hid, hroute, hget,
    ResourceData.SetId, mutatingCalls, Event.isRouteCreate, Event.isCustomDomainGet]

/-- C5 at a concrete input: link1 on route1, and the route is gone. -/
theorem read_clears_identifier_when_route_not_found_witness :
    (resourceCdnFrontDoorRouteDisableLinkToDefaultDomainRead exampleEnv
      (exampleData ["cd1"] ["cd1"]) (exampleWorld (RouteGetResult.notFound "404"))).d.Id = "" ∧
    (resourceCdnFrontDoorRouteDisableLinkToDefaultDomainRead exampleEnv
      (exampleData ["cd1"] ["cd1"]) (exampleWorld (RouteGetResult.notFound "404"))).err = none := by
  have h := read_clears_identifier_when_route_not_found exampleEnv (exampleData ["cd1"] ["cd1"])
    (exampleWorld (RouteGetResult.notFound "404"))
    ⟨"sub", "rg", "profile", "endpoint", "route1", "uuid1"⟩
    ⟨"sub", "rg", "profile", "endpoint", "route1"⟩ "404" rfl rfl (by decide)
  exact ⟨h.1, h.2.1⟩

/-- C6: in a Read whose identifiers parse (the identifier being non-empty),
when the route Get succeeds and `v` is the first configured custom domain, in
list order, whose Get fails (every one before it was found), Read returns the
error naming `v` and leaves the identifier unchanged; and Read returns success
with the identifier unchanged exactly when the route Get and the Get of every
configured custom domain all succeed. -/
theorem read_reports_first_missing_custom_domain
    (env : Env) (d : ResourceData) (w : World)
    (id : FrontDoorRouteDisableLinkToDefaultDomainId) (routeId : FrontDoorRouteId)
    (hid : env.FrontDoorRouteDisableLinkToDefaultDomainID d.Id = Except.ok id)
    (hroute : env.FrontDoorRouteID d.cdn_frontdoor_route_id = Except.ok routeId)
    (hId : d.Id ≠ "") :
    (∀ existing pre v post cdId err,
      w.routes routeId.ResourceGroup routeId.ProfileName routeId.AfdEndpointName
        routeId.RouteName = RouteGetResult.ok existing →
      d.cdn_frontdoor_custom_domain_ids = pre ++ v :: post →
      (∀ u ∈ pre, ∃ cu, env.FrontDoorCustomDomainID u = Except.ok cu ∧
        w.customDomains cu.ResourceGroup cu.ProfileName cu.CustomDomainName = none) →
      env.FrontDoorCustomDomainID v = Except.ok cdId →
      w.customDomains cdId.ResourceGroup cdId.ProfileName cdId.CustomDomainName = some err →
      (resourceCdnFrontDoorRouteDisableLinkToDefaultDomainRead env d w).err =
        some (Err.retrievingExistingCustomDomain cdId err) ∧
      (resourceCdnFrontDoorRouteDisableLinkToDefaultDomainRead env d w).d.Id = d.Id) ∧
    (((resourceCdnFrontDoorRouteDisableLinkToDefaultDomainRead env d w).err = none ∧
        (resourceCdnFrontDoorRouteDisableLinkToDefaultDomainRead env d w).d.Id = d.Id) ↔
      ((∃ existing, w.routes routeId.ResourceGroup routeId.ProfileName routeId.AfdEndpointName
          routeId.RouteName = RouteGetResult.ok existing) ∧
        ∀ u ∈ d.cdn_frontdoor_custom_domain_ids, ∃ cu,
          env.FrontDoorCustomDomainID u = Except.ok cu ∧
          w.customDomains cu.ResourceGroup cu.ProfileName cu.CustomDomainName = none)) := by
  constructor
  · intro existing pre v post cdId err hget hsplit hpre hv hg
    have hl := readCustomDomainsLoop_first_failure env w (ForRead d) id pre v post cdId err
      hpre hv hg
    simp [resourceCdnFrontDoorRouteDisableLinkToDefaultDomainRead, hid, hroute, hget, hsplit, hl]
  · rcases hget : w.routes routeId.ResourceGroup routeId.ProfileName routeId.AfdEndpointName
      routeId.RouteName with existing | e1 | e1
    · have hl := readCustomDomainsLoop_eq_none_iff env w (ForRead d) id
        d.cdn_frontdoor_custom_domain_ids
      simp [resourceCdnFrontDoorRouteDisableLinkToDefaultDomainRead, hid, hroute, hget, hl]
    · simp [resourceCdnFrontDoorRouteDisableLinkToDefaultDomainRead, hid, hroute, hget,
        ResourceData.SetId, Ne.symm hId]
    · simp [resourceCdnFrontDoorRouteDisableLinkToDefaultDomainRead, hid, hroute, hget]

/-- C6 at a concrete input: cd1 and cd2 are configured on route1, in this
order, cd1 is found and cd2 is gone. -/
theorem read_reports_first_missing_custom_domain_witness :
    (resourceCdnFrontDoorRouteDisableLinkToDefaultDomainRead exampleEnv
      (exampleData ["cd1", "cd2"] [])
      { exampleWorld (RouteGetResult.ok ⟨some (exampleProps ["cd1", "cd2"] "Disabled")⟩) with
        customDomains := fun _ _ n => if n = "cd1" then none else some "404" }).err =
      some (Err.retrievingExistingCustomDomain ⟨"sub", "rg", "profile", "cd2"⟩ "404") :=
  ((read_reports_first_missing_custom_domain exampleEnv (exampleData ["cd1", "cd2"] [])
    { exampleWorld (RouteGetResult.ok ⟨some (exampleProps ["cd1", "cd2"] "Disabled")⟩) with
      customDomains := fun _ _ n => if n = "cd1" then none else some "404" }
    ⟨"sub", "rg", "profile", "endpoint", "route1", "uuid1"⟩
    ⟨"sub", "rg", "profile", "endpoint", "route1"⟩ rfl rfl (by decide)).1
    ⟨some (exampleProps ["cd1", "cd2"] "Disabled")⟩ ["cd1"] "cd2" []
    ⟨"sub", "rg", "profile", "cd2"⟩ "404" (by decide) rfl
    (by
      intro u hu
      rw [List.mem_singleton] at hu
      subst hu
      exact ⟨⟨"sub", "rg", "profile", "cd1"⟩, rfl, by decide⟩)
    rfl (by decide)).1

/-- C7: the scenario, over the remote route state. The route has exactly one
custom domain and a flag other than `Disabled`, that one domain is configured
(and accepted by the validation), and the remote calls succeed. Then Create
makes exactly one mutating call, which sends the fetched properties with the
flag `Disabled`, and afterwards the remote route carries the flag `Disabled`
with its other properties as they were. Against the resulting world, Update
with an unchanged list makes no mutating call, and neither does a re-run of
the Create or Update body on the same route. -/
theorem create_disables_once_then_reapply_is_quiet
    (env : Env) (d : ResourceData) (w : World) (routeId : FrontDoorRouteId) (uuid : String)
    (existing : Route) (props : RouteProperties) (dom : String)
    (hroute : env.FrontDoorRouteID d.cdn_frontdoor_route_id = Except.ok routeId)
    (huuid : w.uuid = Except.ok uuid)
    (hget : w.routes routeId.ResourceGroup routeId.ProfileName routeId.AfdEndpointName
      routeId.RouteName = RouteGetResult.ok existing)
    (hprops : existing.RouteProperties = some props)
    (hflat : env.flattenCustomDomainActivatedResourceArray props.CustomDomains = Except.ok [dom])
    (hconf : d.cdn_frontdoor_custom_domain_ids = [dom])
    (hvalid : env.validateCustomDomainLinkToDefaultDomainState [dom] [dom]
      routeId.RouteName routeId.ProfileName = none)
    (hflag : props.LinkToDefaultDomain ≠ LinkToDefaultDomainDisabled)
    (hcreate : w.createErr routeId.ResourceGroup routeId.ProfileName routeId.AfdEndpointName
      routeId.RouteName ⟨some (props.setLinkToDefaultDomain LinkToDefaultDomainDisabled)⟩ = none)
    (hwait : w.waitErr routeId.ResourceGroup routeId.ProfileName routeId.AfdEndpointName
      routeId.RouteName ⟨some (props.setLinkToDefaultDomain LinkToDefaultDomainDisabled)⟩ = none) :
    mutatingCalls (resourceCdnFrontDoorRouteDisableLinkToDefaultDomainCreate env d w).trace =
      [Event.routeCreate (ForCreate d) routeId.ResourceGroup routeId.ProfileName
        routeId.AfdEndpointName routeId.RouteName
        ⟨some (props.setLinkToDefaultDomain LinkToDefaultDomainDisabled)⟩] ∧
    (resourceCdnFrontDoorRouteDisableLinkToDefaultDomainCreate env d w).w.routes
      routeId.ResourceGroup routeId.ProfileName routeId.AfdEndpointName routeId.RouteName =
      RouteGetResult.ok ⟨some (props.setLinkToDefaultDomain LinkToDefaultDomainDisabled)⟩ ∧
    (props.setLinkToDefaultDomain LinkToDefaultDomainDisabled).LinkToDefaultDomain =
      LinkToDefaultDomainDisabled ∧
    (∀ d2, d2.HasChange_cdn_frontdoor_custom_domain_ids = false →
      mutatingCalls (resourceCdnFrontDoorRouteDisableLinkToDefaultDomainUpdate env d2
        (resourceCdnFrontDoorRouteDisableLinkToDefaultDomainCreate env d w).w).trace = []) ∧
    (∀ d2, env.FrontDoorRouteID d2.cdn_frontdoor_route_id = Except.ok routeId →
      mutatingCalls (resourceCdnFrontDoorRouteDisableLinkToDefaultDomainCreate env d2
        (resourceCdnFrontDoorRouteDisableLinkToDefaultDomainCreate env d w).w).trace = [] ∧
      mutatingCalls (resourceCdnFrontDoorRouteDisableLinkToDefaultDomainUpdate env d2
        (resourceCdnFrontDoorRouteDisableLinkToDefaultDomainCreate env d w).w).trace = []) := by
  have hremote : (resourceCdnFrontDoorRouteDisableLinkToDefaultDomainCreate env d w).w.routes
      routeId.ResourceGroup routeId.ProfileName routeId.AfdEndpointName routeId.RouteName =
      RouteGetResult.ok ⟨some (props.setLinkToDefaultDomain LinkToDefaultDomainDisabled)⟩ := by
    simp [resourceCdnFrontDoorRouteDisableLinkToDefaultDomainCreate, createLocked, hroute, huuid,
      World.ByID, World.UnlockByID, hget, hprops, hflat, hconf, hvalid, hflag, hcreate, hwait,
      read_world, World.completed]
  refine ⟨?_, hremote, rfl, ?_, ?_⟩
  · rcases create_mutatingCalls env d w with h | ⟨r2, e2, p2, l2, h1, h2, h3, -, -, -, -, h8⟩
    · exfalso
      revert h
      simp [resourceCdnFrontDoorRouteDisableLinkToDefaultDomainCreate, createLocked, hroute, huuid,
        World.ByID, hget, hprops, hflat, hconf, hvalid, hflag, hcreate, hwait, mutatingCalls,
        Event.isRouteCreate]
    · rw [hroute] at h1
      cases h1
      rw [hget] at h2
      cases h2
      rw [hprops] at h3
      cases h3
      exact h8
  · intro d2 hc
    simp only [resourceCdnFrontDoorRouteDisableLinkToDefaultDomainUpdate, hc]
    exact read_mutatingCalls env d2 _
  · intro d2 hr2
    constructor
    · rcases create_mutatingCalls env d2
          (resourceCdnFrontDoorRouteDisableLinkToDefaultDomainCreate env d w).w with
        h | ⟨r2, e2, p2, l2, h1, h2, h3, -, -, -, h7, -⟩
      · exact h
      · rw [hr2] at h1
        cases h1
        rw [hremote] at h2
        cases h2
        cases h3
        exact absurd rfl h7
    · rcases update_mutatingCalls env d2
          (resourceCdnFrontDoorRouteDisableLinkToDefaultDomainCreate env d w).w with
        h | ⟨r2, e2, p2, l2, -, h1, h2, h3, -, -, -, h7, -⟩
      · exact h
      · rw [hr2] at h1
        cases h1
        rw [hremote] at h2
        cases h2
        cases h3
        exact absurd rfl h7

/-- C7 at a concrete input: route1 has the custom domain cd1 and the flag
`Enabled`, cd1 is configured; one mutating call, then none on re-apply. -/
theorem create_disables_once_then_reapply_is_quiet_witness :
    (mutatingCalls (resourceCdnFrontDoorRouteDisableLinkToDefaultDomainCreate exampleEnv
      (exampleData ["cd1"] [])
      (exampleWorld (RouteGetResult.ok ⟨some (exampleProps ["cd1"] "Enabled")⟩))).trace).length
      = 1 ∧
    mutatingCalls (resourceCdnFrontDoorRouteDisableLinkToDefaultDomainUpdate exampleEnv
      (exampleData ["cd1"] ["cd1"])
      (resourceCdnFrontDoorRouteDisableLinkToDefaultDomainCreate exampleEnv
        (exampleData ["cd1"] [])
        (exampleWorld (RouteGetResult.ok ⟨some (exampleProps ["cd1"] "Enabled")⟩))).w).trace
      = [] := by
  have h := create_disables_once_then_reapply_is_quiet exampleEnv (exampleData ["cd1"] [])
    (exampleWorld (RouteGetResult.ok ⟨some (exampleProps ["cd1"] "Enabled")⟩))
    ⟨"sub", "rg", "profile", "endpoint", "route1"⟩ "uuid1"
    ⟨some (exampleProps ["cd1"] "Enabled")⟩ (exampleProps ["cd1"] "Enabled") "cd1"
    rfl rfl (by decide) rfl rfl rfl (by decide) (by decide) rfl rfl
  refine ⟨?_, h.2.2.2.1 (exampleData ["cd1"] ["cd1"]) (by decide)⟩
  rw [h.1]
  rfl

/-- C8 as stated fails for Update and Delete: with route1 answering not-found,
Update (the configured list differs from the prior one) and Delete both return
no error. -/
theorem update_delete_route_not_found_returns_no_error :
    (exampleWorld (RouteGetResult.notFound "404")).routes "rg" "profile" "endpoint" "route1" =
      RouteGetResult.notFound "404" ∧
    (exampleData ["cd1"] []).HasChange_cdn_frontdoor_custom_domain_ids = true ∧
    (resourceCdnFrontDoorRouteDisableLinkToDefaultDomainUpdate exampleEnv
      (exampleData ["cd1"] []) (exampleWorld (RouteGetResult.notFound "404"))).err = none ∧
    (resourceCdnFrontDoorRouteDisableLinkToDefaultDomainDelete exampleEnv
      (exampleData ["cd1"] []) (exampleWorld (RouteGetResult.notFound "404"))).err = none := by
  decide

/-- C8, amended: a route Get answered with not-found is a hard error in Create
only: Create returns a non-nil error (the "was not found" error once the UUID
is generated), issues no mutating call and leaves the identifier unchanged.
Update (with a changed list) and Delete, once their identifiers parse, treat
it as removal: they set the identifier to the empty string, return no error
and issue no mutating call. -/
theorem route_not_found_errors_in_create_only
    (env : Env) (d : ResourceData) (w : World) (routeId : FrontDoorRouteId) (err : String)
    (hget : w.routes routeId.ResourceGroup routeId.ProfileName routeId.AfdEndpointName
      routeId.RouteName = RouteGetResult.notFound err) :
    (env.FrontDoorRouteID d.cdn_frontdoor_route_id = Except.ok routeId →
      (resourceCdnFrontDoorRouteDisableLinkToDefaultDomainCreate env d w).err ≠ none ∧
      (∀ uuid, w.uuid = Except.ok uuid →
        (resourceCdnFrontDoorRouteDisableLinkToDefaultDomainCreate env d w).err =
          some (Err.creatingNotFound
            (NewFrontDoorRouteDisableLinkToDefaultDomainID routeId.SubscriptionId
              routeId.ResourceGroup routeId.ProfileName routeId.AfdEndpointName
              routeId.RouteName uuid) routeId)) ∧
      mutatingCalls (resourceCdnFrontDoorRouteDisableLinkToDefaultDomainCreate env d w).trace = [] ∧
      (resourceCdnFrontDoorRouteDisableLinkToDefaultDomainCreate env d w).d.Id = d.Id) ∧
    (d.HasChange_cdn_frontdoor_custom_domain_ids = true →
      env.FrontDoorRouteID d.cdn_frontdoor_route_id = Except.ok routeId →
      ∀ id, env.FrontDoorRouteDisableLinkToDefaultDomainID d.Id = Except.ok id →
        (resourceCdnFrontDoorRouteDisableLinkToDefaultDomainUpdate env d w).err = none ∧
        (resourceCdnFrontDoorRouteDisableLinkToDefaultDomainUpdate env d w).d.Id = "" ∧
        mutatingCalls
          (resourceCdnFrontDoorRouteDisableLinkToDefaultDomainUpdate env d w).trace = []) ∧
    (env.FrontDoorRouteID d.prior_cdn_frontdoor_route_id = Except.ok routeId →
      ∀ id, env.FrontDoorRouteDisableLinkToDefaultDomainID d.Id = Except.ok id →
        (resourceCdnFrontDoorRouteDisableLinkToDefaultDomainDelete env d w).err = none ∧
        (resourceCdnFrontDoorRouteDisableLinkToDefaultDomainDelete env d w).d.Id = "" ∧
        mutatingCalls
          (resourceCdnFrontDoorRouteDisableLinkToDefaultDomainDelete env d w).trace = []) := by
  refine ⟨?_, ?_, ?_⟩
  · intro hroute
    rcases hu : w.uuid with e | uuid
    · simp [resourceCdnFrontDoorRouteDisableLinkToDefaultDomainCreate, hroute, hu, mutatingCalls]
    · simp [resourceCdnFrontDoorRouteDisableLinkToDefaultDomainCreate, createLocked, hroute, hu,
        World.ByID, hget, mutatingCalls, Event.isRouteCreate]
  · intro hc hroute id hi
    simp [resourceCdnFrontDoorRouteDisableLinkToDefaultDomainUpdate, updateLocked, hc, hroute,
      hi, World.ByID, hget, mutatingCalls, Event.isRouteCreate, ResourceData.SetId]
  · intro hroute id hi
    simp [resourceCdnFrontDoorRouteDisableLinkToDefaultDomainDelete, deleteLocked, hroute,
      hi, World.ByID, hget, mutatingCalls, Event.isRouteCreate, ResourceData.SetId]

/-- C8, amended, at a concrete input: route1 is gone; Create fails, Update
and Delete clear the identifier and succeed. -/
theorem route_not_found_errors_in_create_only_witness :
    (resourceCdnFrontDoorRouteDisableLinkToDefaultDomainCreate exampleEnv
      (exampleData ["cd1"] []) (exampleWorld (RouteGetResult.notFound "404"))).err ≠ none ∧
    (resourceCdnFrontDoorRouteDisableLinkToDefaultDomainUpdate exampleEnv
      (exampleData ["cd1"] []) (exampleWorld (RouteGetResult.notFound "404"))).d.Id = "" ∧
    (resourceCdnFrontDoorRouteDisableLinkToDefaultDomainDelete exampleEnv
      (exampleData ["cd1"] []) (exampleWorld (RouteGetResult.notFound "404"))).d.Id = "" := by
  have h := route_not_found_errors_in_create_only exampleEnv (exampleData ["cd1"] [])
    (exampleWorld (RouteGetResult.notFound "404"))
    ⟨"sub", "rg", "profile", "endpoint", "route1"⟩ "404" (by decide)
  exact ⟨(h.1 rfl).1,
    (h.2.1 (by decide) rfl ⟨"sub", "rg", "profile", "endpoint", "route1", "uuid1"⟩ rfl).2.1,
    (h.2.2 rfl ⟨"sub", "rg", "profile", "endpoint", "route1", "uuid1"⟩ rfl).2.1⟩

/-- C9: when `HasChange("cdn_frontdoor_custom_domain_ids")` is false, Update is
Read on the same inputs: same error, same resource data (so the same effect
on the identifier), same world, same trace. In particular its trace has no
lock call and no mutating call, its route Gets are those of Read, and the held
locks are as before. -/
theorem update_without_change_is_read
    (env : Env) (d : ResourceData) (w : World)
    (hc : d.HasChange_cdn_frontdoor_custom_domain_ids = false) :
    resourceCdnFrontDoorRouteDisableLinkToDefaultDomainUpdate env d w =
      resourceCdnFrontDoorRouteDisableLinkToDefaultDomainRead env d w ∧
    (∀ e ∈ (resourceCdnFrontDoorRouteDisableLinkToDefaultDomainUpdate env d w).trace,
      e.isLockCall = false ∧ e.isRouteCreate = false) ∧
    mutatingCalls (resourceCdnFrontDoorRouteDisableLinkToDefaultDomainUpdate env d w).trace = [] ∧
    (resourceCdnFrontDoorRouteDisableLinkToDefaultDomainUpdate env d w).trace.filter
        Event.isRouteGet =
      (resourceCdnFrontDoorRouteDisableLinkToDefaultDomainRead env d w).trace.filter
        Event.isRouteGet ∧
    (resourceCdnFrontDoorRouteDisableLinkToDefaultDomainUpdate env d w).w = w := by
  have h : resourceCdnFrontDoorRouteDisableLinkToDefaultDomainUpdate env d w =
      resourceCdnFrontDoorRouteDisableLinkToDefaultDomainRead env d w := by
    simp [resourceCdnFrontDoorRouteDisableLinkToDefaultDomainUpdate, hc]
  rw [h]
  exact ⟨rfl, read_noLockCalls env d w, read_mutatingCalls env d w, rfl, read_world env d w⟩

/-- C9 at a concrete input: the configured list equals the prior one. -/
theorem update_without_change_is_read_witness :
    resourceCdnFrontDoorRouteDisableLinkToDefaultDomainUpdate exampleEnv
      (exampleData ["cd1"] ["cd1"])
      (exampleWorld (RouteGetResult.ok ⟨some (exampleProps ["cd1"] "Enabled")⟩)) =
    resourceCdnFrontDoorRouteDisableLinkToDefaultDomainRead exampleEnv
      (exampleData ["cd1"] ["cd1"])
      (exampleWorld (RouteGetResult.ok ⟨some (exampleProps ["cd1"] "Enabled")⟩)) :=
  (update_without_change_is_read exampleEnv (exampleData ["cd1"] ["cd1"])
    (exampleWorld (RouteGetResult.ok ⟨some (exampleProps ["cd1"] "Enabled")⟩)) (by decide)).1

/-- C10 as stated fails for Delete: on a route without custom domains whose
flag is `Disabled`, Delete issues its route Get and its mutating call having
locked the route resource type only; the custom-domain resource type is never
locked. -/
theorem delete_does_not_take_custom_domain_lock :
    (resourceCdnFrontDoorRouteDisableLinkToDefaultDomainDelete exampleEnv
      (exampleData ["cd1"] ["cd1"])
      (exampleWorld (RouteGetResult.ok ⟨some (exampleProps [] "Disabled")⟩))).trace =
      [Event.lockByID "azurerm_cdn_frontdoor_route",
        Event.routeGet ⟨30⟩ "rg" "profile" "endpoint" "route1",
        Event.routeCreate ⟨30⟩ "rg" "profile" "endpoint" "route1"
          ⟨some (exampleProps [] "Enabled")⟩,
        Event.waitForCompletion ⟨30⟩,
        Event.unlockByID "azurerm_cdn_frontdoor_route"] ∧
    routeCallsUnderLocks
      [exampleEnv.cdnFrontDoorRouteResourceType, exampleEnv.cdnFrontDoorCustomDomainResourceType]
      []
      (resourceCdnFrontDoorRouteDisableLinkToDefaultDomainDelete exampleEnv
        (exampleData ["cd1"] ["cd1"])
        (exampleWorld (RouteGetResult.ok ⟨some (exampleProps [] "Disabled")⟩))).trace = false := by
  decide

/-- C10, amended: in every execution of Create and of Update (with a changed
list), every route Get and every mutating route Create call is issued while
both the route resource-type lock and the custom-domain resource-type lock
are held; in every execution of Delete they are issued while the route
resource-type lock is held, and that is the only lock Delete takes. On every
exit path of the three operations each lock taken has been released: the held
locks are the same after the operation as before it. -/
theorem route_calls_under_locks_and_locks_released
    (env : Env) (d : ResourceData) (w : World) (held : List String) :
    (routeCallsUnderLocks
        [env.cdnFrontDoorRouteResourceType, env.cdnFrontDoorCustomDomainResourceType] held
        (resourceCdnFrontDoorRouteDisableLinkToDefaultDomainCreate env d w).trace = true ∧
      heldAfter held (resourceCdnFrontDoorRouteDisableLinkToDefaultDomainCreate env d w).trace
        = held ∧
      (resourceCdnFrontDoorRouteDisableLinkToDefaultDomainCreate env d w).w.held = w.held) ∧
    (d.HasChange_cdn_frontdoor_custom_domain_ids = true →
      routeCallsUnderLocks
        [env.cdnFrontDoorRouteResourceType, env.cdnFrontDoorCustomDomainResourceType] held
        (resourceCdnFrontDoorRouteDisableLinkToDefaultDomainUpdate env d w).trace = true ∧
      heldAfter held (resourceCdnFrontDoorRouteDisableLinkToDefaultDomainUpdate env d w).trace
        = held ∧
      (resourceCdnFrontDoorRouteDisableLinkToDefaultDomainUpdate env d w).w.held = w.held) ∧
    (routeCallsUnderLocks [env.cdnFrontDoorRouteResourceType] held
        (resourceCdnFrontDoorRouteDisableLinkToDefaultDomainDelete env d w).trace = true ∧
      heldAfter held (resourceCdnFrontDoorRouteDisableLinkToDefaultDomainDelete env d w).trace
        = held ∧
      (resourceCdnFrontDoorRouteDisableLinkToDefaultDomainDelete env d w).w.held = w.held ∧
      ∀ n ∈ lockedNames (resourceCdnFrontDoorRouteDisableLinkToDefaultDomainDelete env d w).trace,
        n = env.cdnFrontDoorRouteResourceType) := by
  refine ⟨?_, ?_, ?_⟩
  · rcases hr : env.FrontDoorRouteID d.cdn_frontdoor_route_id with e | routeId
    · simp [resourceCdnFrontDoorRouteDisableLinkToDefaultDomainCreate, hr, routeCallsUnderLocks,
        heldAfter]
    · rcases hu : w.uuid with e | uuid
      · simp [resourceCdnFrontDoorRouteDisableLinkToDefaultDomainCreate, hr, hu,
          routeCallsUnderLocks, heldAfter]
      · have hb := createLocked_noLockCalls env d
          ((w.ByID env.cdnFrontDoorRouteResourceType).ByID
            env.cdnFrontDoorCustomDomainResourceType)
          (ForCreate d) d.cdn_frontdoor_custom_domain_ids routeId
          (NewFrontDoorRouteDisableLinkToDefaultDomainID routeId.SubscriptionId
            routeId.ResourceGroup routeId.ProfileName routeId.AfdEndpointName routeId.RouteName
            uuid)
        obtain ⟨-, -, -, -, hh, -⟩ := createLocked_shape env d
          ((w.ByID env.cdnFrontDoorRouteResourceType).ByID
            env.cdnFrontDoorCustomDomainResourceType)
          (ForCreate d) d.cdn_frontdoor_custom_domain_ids routeId
          (NewFrontDoorRouteDisableLinkToDefaultDomainID routeId.SubscriptionId
            routeId.ResourceGroup routeId.ProfileName routeId.AfdEndpointName routeId.RouteName
            uuid)
        simp only [resourceCdnFrontDoorRouteDisableLinkToDefaultDomainCreate, hr, hu,
          List.cons_append, List.nil_append, List.append_assoc, routeCallsUnderLocks, heldAfter]
        refine ⟨?_, ?_, ?_⟩
        · rw [routeCallsUnderLocks_append_noLock _ _ _ _ hb (by simp)]
          simp [routeCallsUnderLocks]
        · rw [heldAfter_append_noLock _ _ _ hb]
          simp [heldAfter]
        · simp only [World.UnlockByID]
          rw [hh]
          simp [World.ByID]
  · intro hc
    rcases hr : env.FrontDoorRouteID d.cdn_frontdoor_route_id with e | routeId
    · simp [resourceCdnFrontDoorRouteDisableLinkToDefaultDomainUpdate, hc, hr,
        routeCallsUnderLocks, heldAfter]
    · rcases hi : env.FrontDoorRouteDisableLinkToDefaultDomainID d.Id with e | id
      · simp [resourceCdnFrontDoorRouteDisableLinkToDefaultDomainUpdate, hc, hr, hi,
          routeCallsUnderLocks, heldAfter]
      · have hb := updateLocked_noLockCalls env d
          ((w.ByID env.cdnFrontDoorRouteResourceType).ByID
            env.cdnFrontDoorCustomDomainResourceType)
          (ForCreate d) d.cdn_frontdoor_custom_domain_ids routeId id
        obtain ⟨-, -, -, -, hh, -⟩ := updateLocked_shape env d
          ((w.ByID env.cdnFrontDoorRouteResourceType).ByID
            env.cdnFrontDoorCustomDomainResourceType)
          (ForCreate d) d.cdn_frontdoor_custom_domain_ids routeId id
        simp only [resourceCdnFrontDoorRouteDisableLinkToDefaultDomainUpdate, hc, hr, hi,
          if_true, List.cons_append, List.nil_append, List.append_assoc, routeCallsUnderLocks,
          heldAfter]
        refine ⟨?_, ?_, ?_⟩
        · rw [routeCallsUnderLocks_append_noLock _ _ _ _ hb (by simp)]
          simp [routeCallsUnderLocks]
        · rw [heldAfter_append_noLock _ _ _ hb]
          simp [heldAfter]
        · simp only [World.UnlockByID]
          rw [hh]
          simp [World.ByID]
  · rcases hi : env.FrontDoorRouteDisableLinkToDefaultDomainID d.Id with e | id
    · simp [resourceCdnFrontDoorRouteDisableLinkToDefaultDomainDelete, hi, routeCallsUnderLocks,
        heldAfter, lockedNames]
    · rcases hr : env.FrontDoorRouteID d.prior_cdn_frontdoor_route_id with e | route
      · simp [resourceCdnFrontDoorRouteDisableLinkToDefaultDomainDelete, hi, hr,
          routeCallsUnderLocks, heldAfter, lockedNames]
      · have hb := deleteLocked_noLockCalls env d (w.ByID env.cdnFrontDoorRouteResourceType)
          (ForDelete d) id route
        obtain ⟨-, -, hh, -⟩ := deleteLocked_shape env d
          (w.ByID env.cdnFrontDoorRouteResourceType) (ForDelete d) id route
        simp only [resourceCdnFrontDoorRouteDisableLinkToDefaultDomainDelete, hi, hr,
          List.cons_append, List.nil_append, List.append_assoc, routeCallsUnderLocks, heldAfter,
          lockedNames]
        refine ⟨?_, ?_, ?_, ?_⟩
        · rw [routeCallsUnderLocks_append_noLock _ _ _ _ hb (by simp)]
          simp [routeCallsUnderLocks]
        · rw [heldAfter_append_noLock _ _ _ hb]
          simp [heldAfter]
        · simp only [World.UnlockByID]
          rw [hh]
          simp [World.ByID]
        · rw [lockedNames_append_noLock _ _ hb]
          simp [lockedNames]

/-- C10, amended, at a concrete input: Update with a changed list on route1
(one custom domain, flag `Enabled`) issues its route calls under both locks
and ends with no lock held. -/
theorem route_calls_under_locks_and_locks_released_witness :
    routeCallsUnderLocks
      [exampleEnv.cdnFrontDoorRouteResourceType, exampleEnv.cdnFrontDoorCustomDomainResourceType]
      []
      (resourceCdnFrontDoorRouteDisableLinkToDefaultDomainUpdate exampleEnv
        (exampleData ["cd1"] [])
        (exampleWorld (RouteGetResult.ok ⟨some (exampleProps ["cd1"] "Enabled")⟩))).trace = true ∧
    heldAfter []
      (resourceCdnFrontDoorRouteDisableLinkToDefaultDomainUpdate exampleEnv
        (exampleData ["cd1"] [])
        (exampleWorld (RouteGetResult.ok ⟨some (exampleProps ["cd1"] "Enabled")⟩))).trace = [] := by
  have h := (route_calls_under_locks_and_locks_released exampleEnv (exampleData ["cd1"] [])
    (exampleWorld (RouteGetResult.ok ⟨some (exampleProps ["cd1"] "Enabled")⟩)) []).2.1
    (by decide)
  exact ⟨h.1, h.2.1⟩

/-- C11 fails for Update: with a Create timeout of 30 and an Update timeout of
60, Update (changed list, route1 with the custom domain cd1 and the flag
`Enabled`) issues its route Get, its mutating call and the wait under the
deadline 30, the Create timeout, not under `ForUpdate`, which is 60. Changing
only the Update timeout (to 90) leaves the whole trace of Update as it was;
changing only the Create timeout (to 45) moves the deadline of Update's route
Get. -/
theorem update_runs_under_create_timeout :
    (resourceCdnFrontDoorRouteDisableLinkToDefaultDomainUpdate exampleEnv
      { exampleData ["cd1"] [] with Timeouts := ⟨30, 5, 60, 30⟩ }
      (exampleWorld (RouteGetResult.ok ⟨some (exampleProps ["cd1"] "Enabled")⟩))).trace =
      [Event.lockByID "azurerm_cdn_frontdoor_route",
        Event.lockByID "azurerm_cdn_frontdoor_custom_domain",
        Event.routeGet ⟨30⟩ "rg" "profile" "endpoint" "route1",
        Event.routeCreate ⟨30⟩ "rg" "profile" "endpoint" "route1"
          ⟨some (exampleProps ["cd1"] "Disabled")⟩,
        Event.waitForCompletion ⟨30⟩,
        Event.routeGet ⟨5⟩ "rg" "profile" "endpoint" "route1",
        Event.customDomainGet ⟨5⟩ "rg" "profile" "cd1",
        Event.unlockByID "azurerm_cdn_frontdoor_custom_domain",
        Event.unlockByID "azurerm_cdn_frontdoor_route"] ∧
    ForUpdate { exampleData ["cd1"] [] with Timeouts := ⟨30, 5, 60, 30⟩ } = ⟨60⟩ ∧
    (resourceCdnFrontDoorRouteDisableLinkToDefaultDomainUpdate exampleEnv
      { exampleData ["cd1"] [] with Timeouts := ⟨30, 5, 90, 30⟩ }
      (exampleWorld (RouteGetResult.ok ⟨some (exampleProps ["cd1"] "Enabled")⟩))).trace =
    (resourceCdnFrontDoorRouteDisableLinkToDefaultDomainUpdate exampleEnv
      { exampleData ["cd1"] [] with Timeouts := ⟨30, 5, 60, 30⟩ }
      (exampleWorld (RouteGetResult.ok ⟨some (exampleProps ["cd1"] "Enabled")⟩))).trace ∧
    Event.routeGet ⟨45⟩ "rg" "profile" "endpoint" "route1" ∈
      (resourceCdnFrontDoorRouteDisableLinkToDefaultDomainUpdate exampleEnv
        { exampleData ["cd1"] [] with Timeouts := ⟨45, 5, 60, 30⟩ }
        (exampleWorld (RouteGetResult.ok ⟨some (exampleProps ["cd1"] "Enabled")⟩))).trace := by
  decide

/-- C12: when the route Get succeeds but the route carries nil properties,
Create, Update (with a changed list) and Delete return an error (the
"properties are nil" error once the identifier is available), issue no
mutating call and leave the identifier unchanged. The nil properties are not
dereferenced: the custom-domain list and the flag are never read, so the
outcome is the same whatever the `flatten` and `validate` helpers would
answer, and the only remote call is the route Get. -/
theorem nil_properties_is_an_error
    (env : Env) (d : ResourceData) (w : World) (routeId : FrontDoorRouteId) (existing : Route)
    (hget : w.routes routeId.ResourceGroup routeId.ProfileName routeId.AfdEndpointName
      routeId.RouteName = RouteGetResult.ok existing)
    (hnil : existing.RouteProperties = none) :
    (env.FrontDoorRouteID d.cdn_frontdoor_route_id = Except.ok routeId →
      ((resourceCdnFrontDoorRouteDisableLinkToDefaultDomainCreate env d w).err ≠ none ∧
        (∀ uuid, w.uuid = Except.ok uuid →
          (resourceCdnFrontDoorRouteDisableLinkToDefaultDomainCreate env d w).err =
            some (Err.creatingPropertiesNil
              (NewFrontDoorRouteDisableLinkToDefaultDomainID routeId.SubscriptionId
                routeId.ResourceGroup routeId.ProfileName routeId.AfdEndpointName
                routeId.RouteName uuid) routeId) ∧
          (resourceCdnFrontDoorRouteDisableLinkToDefaultDomainCreate env d w).trace =
            [Event.lockByID env.cdnFrontDoorRouteResourceType,
              Event.lockByID env.cdnFrontDoorCustomDomainResourceType,
              Event.routeGet (ForCreate d) routeId.ResourceGroup routeId.ProfileName
                routeId.AfdEndpointName routeId.RouteName,
              Event.unlockByID env.cdnFrontDoorCustomDomainResourceType,
              Event.unlockByID env.cdnFrontDoorRouteResourceType]) ∧
        mutatingCalls
          (resourceCdnFrontDoorRouteDisableLinkToDefaultDomainCreate env d w).trace = [] ∧
        (resourceCdnFrontDoorRouteDisableLinkToDefaultDomainCreate env d w).d.Id = d.Id ∧
        ∀ flatten validate,
          resourceCdnFrontDoorRouteDisableLinkToDefaultDomainCreate
            { env with
              flattenCustomDomainActivatedResourceArray := flatten
              validateCustomDomainLinkToDefaultDomainState := validate } d w =
          resourceCdnFrontDoorRouteDisableLinkToDefaultDomainCreate env d w) ∧
      (d.HasChange_cdn_frontdoor_custom_domain_ids = true →
        (resourceCdnFrontDoorRouteDisableLinkToDefaultDomainUpdate env d w).err ≠ none ∧
        (∀ id, env.FrontDoorRouteDisableLinkToDefaultDomainID d.Id = Except.ok id →
          (resourceCdnFrontDoorRouteDisableLinkToDefaultDomainUpdate env d w).err =
            some (Err.updatingPropertiesNil id routeId) ∧
          (resourceCdnFrontDoorRouteDisableLinkToDefaultDomainUpdate env d w).trace =
            [Event.lockByID env.cdnFrontDoorRouteResourceType,
              Event.lockByID env.cdnFrontDoorCustomDomainResourceType,
              Event.routeGet (ForCreate d) routeId.ResourceGroup routeId.ProfileName
                routeId.AfdEndpointName routeId.RouteName,
              Event.unlockByID env.cdnFrontDoorCustomDomainResourceType,
              Event.unlockByID env.cdnFrontDoorRouteResourceType]) ∧
        mutatingCalls
          (resourceCdnFrontDoorRouteDisableLinkToDefaultDomainUpdate env d w).trace = [] ∧
        (resourceCdnFrontDoorRouteDisableLinkToDefaultDomainUpdate env d w).d.Id = d.Id ∧
        ∀ flatten validate,
          resourceCdnFrontDoorRouteDisableLinkToDefaultDomainUpdate
            { env with
              flattenCustomDomainActivatedResourceArray := flatten
              validateCustomDomainLinkToDefaultDomainState := validate } d w =
          resourceCdnFrontDoorRouteDisableLinkToDefaultDomainUpdate env d w)) ∧
    (env.FrontDoorRouteID d.prior_cdn_frontdoor_route_id = Except.ok routeId →
      (resourceCdnFrontDoorRouteDisableLinkToDefaultDomainDelete env d w).err ≠ none ∧
      (∀ id, env.FrontDoorRouteDisableLinkToDefaultDomainID d.Id = Except.ok id →
        (resourceCdnFrontDoorRouteDisableLinkToDefaultDomainDelete env d w).err =
          some (Err.deletingPropertiesNil id routeId) ∧
        (resourceCdnFrontDoorRouteDisableLinkToDefaultDomainDelete env d w).trace =
          [Event.lockByID env.cdnFrontDoorRouteResourceType,
            Event.routeGet (ForDelete d) routeId.ResourceGroup routeId.ProfileName
              routeId.AfdEndpointName routeId.RouteName,
            Event.unlockByID env.cdnFrontDoorRouteResourceType]) ∧
      mutatingCalls
        (resourceCdnFrontDoorRouteDisableLinkToDefaultDomainDelete env d w).trace = [] ∧
      (resourceCdnFrontDoorRouteDisableLinkToDefaultDomainDelete env d w).d.Id = d.Id ∧
      ∀ flatten validate,
        resourceCdnFrontDoorRouteDisableLinkToDefaultDomainDelete
          { env with
            flattenCustomDomainActivatedResourceArray := flatten
            validateCustomDomainLinkToDefaultDomainState := validate } d w =
        resourceCdnFrontDoorRouteDisableLinkToDefaultDomainDelete env d w) := by
  constructor
  · intro hroute
    constructor
    · rcases hu : w.uuid with e | uuid
      · simp [resourceCdnFrontDoorRouteDisableLinkToDefaultDomainCreate, hroute, hu,
          mutatingCalls]
      · simp [resourceCdnFrontDoorRouteDisableLinkToDefaultDomainCreate, createLocked, hroute,
          hu, World.ByID, hget, hnil, mutatingCalls, Event.isRouteCreate]
    · intro hc
      rcases hi : env.FrontDoorRouteDisableLinkToDefaultDomainID d.Id with e | id
      · simp [resourceCdnFrontDoorRouteDisableLinkToDefaultDomainUpdate, hc, hroute, hi,
          mutatingCalls]
      · simp [resourceCdnFrontDoorRouteDisableLinkToDefaultDomainUpdate, updateLocked, hc,
          hroute, hi, World.ByID, hget, hnil, mutatingCalls, Event.isRouteCreate]
  · intro hroute
    rcases hi : env.FrontDoorRouteDisableLinkToDefaultDomainID d.Id with e | id
    · simp [resourceCdnFrontDoorRouteDisableLinkToDefaultDomainDelete, hi, mutatingCalls]
    · simp [resourceCdnFrontDoorRouteDisableLinkToDefaultDomainDelete, deleteLocked, hroute,
        hi, World.ByID, hget, hnil, mutatingCalls, Event.isRouteCreate]

/-- C12 at a concrete input: route1 is returned without properties. -/
theorem nil_properties_is_an_error_witness :
    (resourceCdnFrontDoorRouteDisableLinkToDefaultDomainCreate exampleEnv
      (exampleData ["cd1"] []) (exampleWorld (RouteGetResult.ok ⟨none⟩))).err ≠ none ∧
    (resourceCdnFrontDoorRouteDisableLinkToDefaultDomainUpdate exampleEnv
      (exampleData ["cd1"] []) (exampleWorld (RouteGetResult.ok ⟨none⟩))).err ≠ none ∧
    (resourceCdnFrontDoorRouteDisableLinkToDefaultDomainDelete exampleEnv
      (exampleData ["cd1"] []) (exampleWorld (RouteGetResult.ok ⟨none⟩))).err ≠ none := by
  have h := nil_properties_is_an_error exampleEnv (exampleData ["cd1"] [])
    (exampleWorld (RouteGetResult.ok ⟨none⟩))
    ⟨"sub", "rg", "profile", "endpoint", "route1"⟩ ⟨none⟩ (by decide) rfl
  exact ⟨((h.1 rfl).1).1, ((h.1 rfl).2 (by decide)).1, (h.2 rfl).1⟩

/-- C13: in a Delete whose identifiers parse, a mutating route Create call is
issued if and only if the route Get succeeds with non-nil properties, the route
has zero custom domains and the fetched flag equals `Disabled`; the call is
then the only one and sends the fetched properties with the flag `Enabled`.
With zero custom domains and any other fetched flag (`Enabled`, unset, ...)
Delete makes no mutating call, leaves the world as it was, clears the
identifier and returns no error. -/
theorem delete_mutates_iff_no_custom_domains_and_disabled
    (env : Env) (d : ResourceData) (w : World)
    (id : FrontDoorRouteDisableLinkToDefaultDomainId) (route : FrontDoorRouteId)
    (hid : env.FrontDoorRouteDisableLinkToDefaultDomainID d.Id = Except.ok id)
    (hroute : env.FrontDoorRouteID d.prior_cdn_frontdoor_route_id = Except.ok route) :
    (mutatingCalls (resourceCdnFrontDoorRouteDisableLinkToDefaultDomainDelete env d w).trace ≠ []
      ↔ ∃ resp props l,
        w.routes route.ResourceGroup route.ProfileName route.AfdEndpointName route.RouteName =
          RouteGetResult.ok resp ∧
        resp.RouteProperties = some props ∧
        env.flattenCustomDomainActivatedResourceArray props.CustomDomains = Except.ok l ∧
        l.length = 0 ∧
        props.LinkToDefaultDomain = LinkToDefaultDomainDisabled) ∧
    (∀ resp props l,
      w.routes route.ResourceGroup route.ProfileName route.AfdEndpointName route.RouteName =
        RouteGetResult.ok resp →
      resp.RouteProperties = some props →
      env.flattenCustomDomainActivatedResourceArray props.CustomDomains = Except.ok l →
      l.length = 0 →
      (props.LinkToDefaultDomain = LinkToDefaultDomainDisabled →
        mutatingCalls (resourceCdnFrontDoorRouteDisableLinkToDefaultDomainDelete env d w).trace =
          [Event.routeCreate (ForDelete d) route.ResourceGroup route.ProfileName
            route.AfdEndpointName route.RouteName
            ⟨some (props.setLinkToDefaultDomain LinkToDefaultDomainEnabled)⟩] ∧
        (props.setLinkToDefaultDomain LinkToDefaultDomainEnabled).LinkToDefaultDomain =
          LinkToDefaultDomainEnabled) ∧
      (props.LinkToDefaultDomain ≠ LinkToDefaultDomainDisabled →
        mutatingCalls
          (resourceCdnFrontDoorRouteDisableLinkToDefaultDomainDelete env d w).trace = [] ∧
        (resourceCdnFrontDoorRouteDisableLinkToDefaultDomainDelete env d w).w = w ∧
        (resourceCdnFrontDoorRouteDisableLinkToDefaultDomainDelete env d w).d.Id = "" ∧
        (resourceCdnFrontDoorRouteDisableLinkToDefaultDomainDelete env d w).err = none)) := by
  have hcall : ∀ resp props l,
      w.routes route.ResourceGroup route.ProfileName route.AfdEndpointName route.RouteName =
        RouteGetResult.ok resp →
      resp.RouteProperties = some props →
      env.flattenCustomDomainActivatedResourceArray props.CustomDomains = Except.ok l →
      l.length = 0 →
      props.LinkToDefaultDomain = LinkToDefaultDomainDisabled →
      mutatingCalls (resourceCdnFrontDoorRouteDisableLinkToDefaultDomainDelete env d w).trace =
        [Event.routeCreate (ForDelete d) route.ResourceGroup route.ProfileName
          route.AfdEndpointName route.RouteName
          ⟨some (props.setLinkToDefaultDomain LinkToDefaultDomainEnabled)⟩] := by
    intro resp props l hget hprops hflat hlen hflag
    have hg : (w.ByID env.cdnFrontDoorRouteResourceType).routes route.ResourceGroup
        route.ProfileName route.AfdEndpointName route.RouteName = RouteGetResult.ok resp := hget
    rcases h7 : (w.ByID env.cdnFrontDoorRouteResourceType).createErr route.ResourceGroup
      route.ProfileName route.AfdEndpointName route.RouteName
      ⟨some (props.setLinkToDefaultDomain LinkToDefaultDomainEnabled)⟩ with _ | e7
    · rcases h8 : (w.ByID env.cdnFrontDoorRouteResourceType).waitErr route.ResourceGroup
        route.ProfileName route.AfdEndpointName route.RouteName
        ⟨some (props.setLinkToDefaultDomain LinkToDefaultDomainEnabled)⟩ with _ | e8
      · simp [resourceCdnFrontDoorRouteDisableLinkToDefaultDomainDelete, deleteLocked, hid,
          hroute, hg, hprops, hflat, hlen, hflag, h7, h8, mutatingCalls, Event.isRouteCreate]
      · simp [resourceCdnFrontDoorRouteDisableLinkToDefaultDomainDelete, deleteLocked, hid,
          hroute, hg, hprops, hflat, hlen, hflag, h7, h8, mutatingCalls, Event.isRouteCreate]
    · simp [resourceCdnFrontDoorRouteDisableLinkToDefaultDomainDelete, deleteLocked, hid,
        hroute, hg, hprops, hflat, hlen, hflag, h7, mutatingCalls, Event.isRouteCreate]
  refine ⟨⟨?_, ?_⟩, ?_⟩
  · intro hm
    rcases delete_mutatingCalls env d w with h | ⟨r2, e2, p2, l2, h1, h2, h3, h4, h5, h6, -⟩
    · exact absurd h hm
    · rw [hroute] at h1
      cases h1
      exact ⟨e2, p2, l2, h2, h3, h4, h5, h6⟩
  · rintro ⟨resp, props, l, hget, hprops, hflat, hlen, hflag⟩
    rw [hcall resp props l hget hprops hflat hlen hflag]
    simp
  · intro resp props l hget hprops hflat hlen
    refine ⟨fun hflag => ⟨hcall resp props l hget hprops hflat hlen hflag, rfl⟩, ?_⟩
    intro hflag
    have hg : (w.ByID env.cdnFrontDoorRouteResourceType).routes route.ResourceGroup
        route.ProfileName route.AfdEndpointName route.RouteName = RouteGetResult.ok resp := hget
    simp [resourceCdnFrontDoorRouteDisableLinkToDefaultDomainDelete, deleteLocked, hid, hroute,
      hg, hprops, hflat, hlen, hflag, mutatingCalls, Event.isRouteCreate, ResourceData.SetId,
      World.UnlockByID_ByID]

/-- C13 at a concrete input: route1 has no custom domain; with the flag
`Disabled` Delete sends the flag `Enabled`, with the flag `Enabled` it makes no
mutating call, clears the identifier and succeeds. -/
theorem delete_mutates_iff_no_custom_domains_and_disabled_witness :
    mutatingCalls (resourceCdnFrontDoorRouteDisableLinkToDefaultDomainDelete exampleEnv
      (exampleData ["cd1"] ["cd1"])
      (exampleWorld (RouteGetResult.ok ⟨some (exampleProps [] "Disabled")⟩))).trace =
      [Event.routeCreate ⟨30⟩ "rg" "profile" "endpoint" "route1"
        ⟨some (exampleProps [] "Enabled")⟩] ∧
    mutatingCalls (resourceCdnFrontDoorRouteDisableLinkToDefaultDomainDelete exampleEnv
      (exampleData ["cd1"] ["cd1"])
      (exampleWorld (RouteGetResult.ok ⟨some (exampleProps [] "Enabled")⟩))).trace = [] ∧
    (resourceCdnFrontDoorRouteDisableLinkToDefaultDomainDelete exampleEnv
      (exampleData ["cd1"] ["cd1"])
      (exampleWorld (RouteGetResult.ok ⟨some (exampleProps [] "Enabled")⟩))).err = none := by
  have h1 := ((delete_mutates_iff_no_custom_domains_and_disabled exampleEnv
    (exampleData ["cd1"] ["cd1"])
    (exampleWorld (RouteGetResult.ok ⟨some (exampleProps [] "Disabled")⟩))
    ⟨"sub", "rg", "profile", "endpoint", "route1", "uuid1"⟩
    ⟨"sub", "rg", "profile", "endpoint", "route1"⟩ rfl rfl).2
    ⟨some (exampleProps [] "Disabled")⟩ (exampleProps [] "Disabled") [] (by decide) rfl rfl
    rfl).1 (by decide)
  have h2 := ((delete_mutates_iff_no_custom_domains_and_disabled exampleEnv
    (exampleData ["cd1"] ["cd1"])
    (exampleWorld (RouteGetResult.ok ⟨some (exampleProps [] "Enabled")⟩))
    ⟨"sub", "rg", "profile", "endpoint", "route1", "uuid1"⟩
    ⟨"sub", "rg", "profile", "endpoint", "route1"⟩ rfl rfl).2
    ⟨some (exampleProps [] "Enabled")⟩ (exampleProps [] "Enabled") [] (by decide) rfl rfl
    rfl).2 (by decide)
  exact ⟨h1.1, h2.1, h2.2.2.2⟩

/-- C14: whenever Create, Update or Delete issues its mutating call, it issues
exactly one; the call comes right after the route Get, under the same context
and addressed to the same resource group, profile, endpoint and route name;
and the properties it sends equal the properties that Get fetched in every
field except `LinkToDefaultDomain`, which is `Disabled` for Create and Update
and `Enabled` for Delete. -/
theorem mutating_call_is_single_and_keeps_other_properties
    (env : Env) (d : ResourceData) (w : World) :
    (mutatingCalls (resourceCdnFrontDoorRouteDisableLinkToDefaultDomainCreate env d w).trace ≠ [] →
      ∃ routeId fetched props sent pre post,
        env.FrontDoorRouteID d.cdn_frontdoor_route_id = Except.ok routeId ∧
        w.routes routeId.ResourceGroup routeId.ProfileName routeId.AfdEndpointName
          routeId.RouteName = RouteGetResult.ok fetched ∧
        fetched.RouteProperties = some props ∧
        (resourceCdnFrontDoorRouteDisableLinkToDefaultDomainCreate env d w).trace =
          pre ++
          [Event.routeGet (ForCreate d) routeId.ResourceGroup routeId.ProfileName
              routeId.AfdEndpointName routeId.RouteName,
            Event.routeCreate (ForCreate d) routeId.ResourceGroup routeId.ProfileName
              routeId.AfdEndpointName routeId.RouteName ⟨some sent⟩] ++ post ∧
        mutatingCalls pre = [] ∧
        mutatingCalls post = [] ∧
        (mutatingCalls (resourceCdnFrontDoorRouteDisableLinkToDefaultDomainCreate env d w).trace).length = 1 ∧
        sent.LinkToDefaultDomain = LinkToDefaultDomainDisabled ∧
        sameExceptLinkToDefaultDomain sent props) ∧
    (mutatingCalls (resourceCdnFrontDoorRouteDisableLinkToDefaultDomainUpdate env d w).trace ≠ [] →
      ∃ routeId fetched props sent pre post,
        env.FrontDoorRouteID d.cdn_frontdoor_route_id = Except.ok routeId ∧
        w.routes routeId.ResourceGroup routeId.ProfileName routeId.AfdEndpointName
          routeId.RouteName = RouteGetResult.ok fetched ∧
        fetched.RouteProperties = some props ∧
        (resourceCdnFrontDoorRouteDisableLinkToDefaultDomainUpdate env d w).trace =
          pre ++
          [Event.routeGet (ForCreate d) routeId.ResourceGroup routeId.ProfileName
              routeId.AfdEndpointName routeId.RouteName,
            Event.routeCreate (ForCreate d) routeId.ResourceGroup routeId.ProfileName
              routeId.AfdEndpointName routeId.RouteName ⟨some sent⟩] ++ post ∧
        mutatingCalls pre = [] ∧
        mutatingCalls post = [] ∧
        (mutatingCalls (resourceCdnFrontDoorRouteDisableLinkToDefaultDomainUpdate env d w).trace).length = 1 ∧
        sent.LinkToDefaultDomain = LinkToDefaultDomainDisabled ∧
        sameExceptLinkToDefaultDomain sent props) ∧
    (mutatingCalls (resourceCdnFrontDoorRouteDisableLinkToDefaultDomainDelete env d w).trace ≠ [] →
      ∃ routeId fetched props sent pre post,
        env.FrontDoorRouteID d.prior_cdn_frontdoor_route_id = Except.ok routeId ∧
        w.routes routeId.ResourceGroup routeId.ProfileName routeId.AfdEndpointName
          routeId.RouteName = RouteGetResult.ok fetched ∧
        fetched.RouteProperties = some props ∧
        (resourceCdnFrontDoorRouteDisableLinkToDefaultDomainDelete env d w).trace =
          pre ++
          [Event.routeGet (ForDelete d) routeId.ResourceGroup routeId.ProfileName
              routeId.AfdEndpointName routeId.RouteName,
            Event.routeCreate (ForDelete d) routeId.ResourceGroup routeId.ProfileName
              routeId.AfdEndpointName routeId.RouteName ⟨some sent⟩] ++ post ∧
        mutatingCalls pre = [] ∧
        mutatingCalls post = [] ∧
        (mutatingCalls (resourceCdnFrontDoorRouteDisableLinkToDefaultDomainDelete env d w).trace).length = 1 ∧
        sent.LinkToDefaultDomain = LinkToDefaultDomainEnabled ∧
        sameExceptLinkToDefaultDomain sent props) := by
  refine ⟨?_, ?_, ?_⟩
  · intro hm
    rcases create_call_in_trace env d w with h | ⟨routeId, fetched, props, post, h1, h2, h3, h4, h5⟩
    · exact absurd h hm
    · refine ⟨routeId, fetched, props, props.setLinkToDefaultDomain LinkToDefaultDomainDisabled, _, post,
        h1, h2, h3, h4, ?_, h5, ?_, (setLinkToDefaultDomain_frame props _).1,
        (setLinkToDefaultDomain_frame props _).2⟩
      · simp [mutatingCalls, Event.isRouteCreate]
      · have h6 : post.filter Event.isRouteCreate = [] := h5
        rw [h4]
        simp [mutatingCalls, Event.isRouteCreate, List.filter_cons, h6]
  · intro hm
    rcases update_call_in_trace env d w with h | ⟨routeId, fetched, props, post, h1, h2, h3, h4, h5⟩
    · exact absurd h hm
    · refine ⟨routeId, fetched, props, props.setLinkToDefaultDomain LinkToDefaultDomainDisabled, _, post,
        h1, h2, h3, h4, ?_, h5, ?_, (setLinkToDefaultDomain_frame props _).1,
        (setLinkToDefaultDomain_frame props _).2⟩
      · simp [mutatingCalls, Event.isRouteCreate]
      · have h6 : post.filter Event.isRouteCreate = [] := h5
        rw [h4]
        simp [mutatingCalls, Event.isRouteCreate, List.filter_cons, h6]
  · intro hm
    rcases delete_call_in_trace env d w with h | ⟨routeId, fetched, props, post, h1, h2, h3, h4, h5⟩
    · exact absurd h hm
    · refine ⟨routeId, fetched, props, props.setLinkToDefaultDomain LinkToDefaultDomainEnabled, _, post,
        h1, h2, h3, h4, ?_, h5, ?_, (setLinkToDefaultDomain_frame props _).1,
        (setLinkToDefaultDomain_frame props _).2⟩
      · simp [mutatingCalls, Event.isRouteCreate]
      · have h6 : post.filter Event.isRouteCreate = [] := h5
        rw [h4]
        simp [mutatingCalls, Event.isRouteCreate, List.filter_cons, h6]

/-- C14 at a concrete input: Create on route1 (custom domain cd1, flag
`Enabled`) makes exactly one mutating call. -/
theorem mutating_call_is_single_and_keeps_other_properties_witness :
    (mutatingCalls (resourceCdnFrontDoorRouteDisableLinkToDefaultDomainCreate exampleEnv
      (exampleData ["cd1"] [])
      (exampleWorld (RouteGetResult.ok ⟨some (exampleProps ["cd1"] "Enabled")⟩))).trace).length
      = 1 := by
  obtain ⟨_, _, _, _, _, _, _, _, _, _, _, _, h, _, _⟩ :=
    (mutating_call_is_single_and_keeps_other_properties exampleEnv (exampleData ["cd1"] [])
      (exampleWorld (RouteGetResult.ok ⟨some (exampleProps ["cd1"] "Enabled")⟩))).1 (by decide)
  exact h

end Cdn
